import Mathlib

/-!
# Greengrass Lite sample components: command slot, field extraction, response encoding

A shallow embedding of the two sample components
`com.example.DeviceAgent/main.c` and `com.example.SystemMonitorC/main.c`.

Conventions of the embedding:

* a C `char` is a `Char`; a byte buffer is a `List Char`; the byte `0` is `NUL`;
* a pointer into a NUL-terminated string is the suffix of the string it points at,
  so `p + n` is `List.drop n` and `q - p` is a difference of lengths;
* the global `pending_command` is kept as the whole 256-byte array, the string
  functions read it through `cstr` (the bytes before the first NUL);
* a local array that is zero-initialised and only ever read with `%s` or `strlen`
  is kept as the bytes that were written into it;
* everything outside the process (the shell, the examples file, the publish call,
  `/proc/stat`) is an explicit parameter, and every call that leaves the process
  is recorded as an `Event`;
* an `unsigned long` is a `Nat` reduced modulo `2 ^ 64`; a `double` or `float` is a
  `FloatVal`, a mantissa and a binary exponent, and every conversion and operation
  rounds to nearest with ties to even, to 53 or 24 significant bits.
-/

namespace GreengrassLite

/-! ## Bytes and C strings -/

/-- The terminating byte of a C string. -/
def NUL : Char := Char.ofNat 0

/-- The double-quote byte, 0x22. -/
def DQUOTE : Char := Char.ofNat 34

/-- The single-quote byte, 0x27. -/
def SQUOTE : Char := Char.ofNat 39

/-- The line-feed byte, 0x0a. -/
def LF : Char := Char.ofNat 10

/-- The space byte, 0x20. -/
def SPACE : Char := Char.ofNat 32

/-- The backslash byte, 0x5c. -/
def BACKSLASH : Char := Char.ofNat 92

/-- The C string held in a buffer: the bytes before the first NUL. -/
def cstr (buf : List Char) : List Char :=
  buf.takeWhile (fun c => c != NUL)

/-- The libc `strchr(s, c)` for `c` other than NUL, on the C string `s`: the suffix
starting at the first `c`, or `none` for a null pointer. -/
def strchr : List Char → Char → Option (List Char)
  | [], _ => none
  | x :: xs, c => if x = c then some (x :: xs) else strchr xs c

/-- The libc `strstr(haystack, needle)`: the suffix of the haystack starting at the
first occurrence of the needle, or `none` for a null pointer. -/
def strstr : List Char → List Char → Option (List Char)
  | [], needle => if needle = [] then some [] else none
  | c :: hay, needle =>
    if needle.isPrefixOf (c :: hay) then some (c :: hay) else strstr hay needle

/-- The libc `strncpy(dst, src, n)` into a zero-filled `dst` with more than `n` bytes:
the bytes of `dst` before its first NUL afterwards. -/
def strncpy (src : List Char) (n : Nat) : List Char :=
  (cstr src).take n

/-- The libc `fread(buf, 1, n, stream)` on a stream that delivers `stream` and then
ends: the bytes stored in `buf` (their number is the return value). -/
def fread (n : Nat) (stream : List Char) : List Char :=
  stream.take n

/-! ## Formatted output -/

/-- An argument of a `printf`-style call. -/
inductive FmtArg where
  | s (buf : List Char)
  | d (n : Int)

/-- The conversion `%d`. -/
def fmt_d (n : Int) : List Char :=
  if n < 0 then Char.ofNat 45 :: Nat.toDigits 10 n.natAbs else Nat.toDigits 10 n.natAbs

/-- The text a `printf`-style call produces for the conversions `%s` and `%d`, the
only ones the response formats use. `%s` prints its argument up to the first NUL. -/
def vformat : List Char → List FmtArg → List Char
  | [], _ => []
  | [c], _ => [c]
  | c :: k :: rest, args =>
    if c = '%' then
      match args with
      | FmtArg.s buf :: args2 =>
        if k = 's' then cstr buf ++ vformat rest args2 else c :: vformat (k :: rest) args
      | FmtArg.d n :: args2 =>
        if k = 'd' then fmt_d n ++ vformat rest args2 else c :: vformat (k :: rest) args
      | [] => c :: vformat (k :: rest) args
    else c :: vformat (k :: rest) args

/-- The libc `snprintf(buf, size, fmt, ...)`: at most `size - 1` bytes of the formatted
text are stored (followed by a NUL). -/
def snprintf (size : Nat) (fmt : List Char) (args : List FmtArg) : List Char :=
  (vformat fmt args).take (size - 1)

/-! ## The world outside the process -/

/-- The result type of the SDK calls; only the distinction between `GGL_ERR_OK` and
the other codes is used by the components. -/
inductive GglError where
  | GGL_ERR_OK
  | GGL_ERR_OTHER (code : Nat)
  deriving DecidableEq

/-- What the components need from their environment while processing one command. -/
structure Env where
  /-- The call `popen(script, "r")` followed by reading the pipe to its end and
  `pclose`: `none` when the shell cannot be started, otherwise everything the
  script writes to its standard output and the status word `pclose` returns. -/
  popen : List Char → Option (List Char × Int)
  /-- The contents of the DeviceAgent `examples.txt` artifact, `none` when `fopen`
  fails. -/
  examples_file : Option (List Char)
  /-- The result of `ggipc_publish_to_iot_core(topic, payload, 0)`. -/
  ggipc_publish_to_iot_core : List Char → List Char → GglError

/-- The calls that leave the process. -/
inductive Event where
  | printf (text : List Char)
  | fprintf_stderr (text : List Char)
  | popen (command : List Char)
  | publish (topic : List Char) (payload : List Char)
  deriving DecidableEq

/-- The publish calls of a trace, in order. -/
def published : List Event → List (List Char × List Char)
  | [] => []
  | Event.publish t p :: rest => (t, p) :: published rest
  | _ :: rest => published rest

/-- The shell commands started in a trace, in order. -/
def shell_commands : List Event → List (List Char)
  | [] => []
  | Event.popen c :: rest => c :: shell_commands rest
  | _ :: rest => shell_commands rest

/-! ## The command slot (identical in both components) -/

/-- The globals `pending_command[256]`, `has_pending_command` and `device_id[64]`. -/
structure State where
  pending_command : List Char
  has_pending_command : Bool
  device_id : List Char
  deriving DecidableEq

/-- The globals at program start, after `main` has stored the device id. -/
def State.init (device_id : List Char) : State :=
  { pending_command := List.replicate 256 NUL
    has_pending_command := false
    device_id := device_id }

/-- The subscription callback `command_handler`: log the message, and queue it when
the slot is free and the payload leaves room for the terminator. -/
def command_handler (s : State) (topic payload : List Char) : State × List Event :=
  let log := Event.printf
    ("Received command on [".toList ++ cstr topic ++ "]: ".toList ++ cstr payload
      ++ [LF])
  if !s.has_pending_command && payload.length < 256 then
    ({ s with
        pending_command := payload ++ NUL :: s.pending_command.drop (payload.length + 1)
        has_pending_command := true }, [log])
  else (s, [log])

/-! ## Field extraction (the same two blocks in both components) -/

/-- The block that fills `client_token` or `script` in `process_pending_command`:
find the anchor, the first double-quote at or after `skip` bytes behind it, the next
double-quote, and copy what lies between when it is shorter than the destination. -/
def parse_field (cmd anchor : List Char) (skip cap : Nat) : List Char :=
  match strstr cmd anchor with
  | none => []
  | some p0 =>
    match strchr (p0.drop skip) DQUOTE with
    | none => []
    | some p1 =>
      let start := p1.drop 1
      match strchr start DQUOTE with
      | none => []
      | some stop =>
        let len := start.length - stop.length
        if len < cap then strncpy start len else []

/-- The anchor of the client token field. -/
def TOKEN_ANCHOR : List Char := "\"clientToken\":".toList

/-- The anchor of the script field. -/
def SCRIPT_ANCHOR : List Char := "\"script\":".toList

/-- The value of `client_token[64]` after the first parsing block. -/
def parse_client_token (cmd : List Char) : List Char :=
  parse_field cmd TOKEN_ANCHOR 14 64

/-- The value of `script[512]` after the second parsing block. -/
def parse_script (cmd : List Char) : List Char :=
  parse_field cmd SCRIPT_ANCHOR 9 512

/-! ## Exit status and escaping -/

/-- Modelled from the spec: the macro `WEXITSTATUS` of `<sys/wait.h>`, which is not part
of the sources; the true exit code is the second byte of the 32-bit wait-status word,
`(status & 0xff00) >> 8`. -/
def WEXITSTATUS (status : Int) : Int :=
  ((((status % 4294967296).toNat &&& 0xff00) >>> 8 : Nat) : Int)

/-- Modelled from the spec: the wait-status word of a child that terminated normally
with exit code `c`, as `pclose` returns it (`c` in the second byte, low byte zero). -/
def exited_status (c : Nat) : Int := ((c % 256 : Nat) : Int) * 256

/-- One step of the loop that escapes `stdout_output`: first the double-quote test,
then the line-feed test on the byte as it stands. -/
def escape_byte (c : Char) : Char :=
  let c1 := if c = DQUOTE then SQUOTE else c
  if c1 = LF then SPACE else c1

/-- One step of the loop over `examples` in the DeviceAgent: first the line-feed test,
then the double-quote test. -/
def escape_examples_byte (c : Char) : Char :=
  let c1 := if c = LF then SPACE else c
  if c1 = DQUOTE then SQUOTE else c1

/-- The response topic written by `snprintf(response_topic, 128, ...)`. -/
def response_topic (s : State) : List Char :=
  snprintf 128 "greengrass/device-agent/%s/logs".toList [FmtArg.s s.device_id]

/-- The SDK helper `ggl_buffer_from_null_term`: the buffer made of the bytes of a C
string, without the terminator. -/
def ggl_buffer_from_null_term (str : List Char) : List Char := cstr str

/-- The tail shared by both versions of `process_pending_command`: publish the
response, log the outcome, clear the flag. -/
def publish_response (env : Env) (s : State) (response : List Char)
    (before : List Event) : State × List Event :=
  let topic := ggl_buffer_from_null_term (response_topic s)
  let payload := ggl_buffer_from_null_term response
  let ret := env.ggipc_publish_to_iot_core topic payload
  let log :=
    if ret = GglError.GGL_ERR_OK then
      Event.printf (vformat "Sent response: %s\n".toList [FmtArg.s response])
    else Event.fprintf_stderr "Failed to send command response\n".toList
  ({ s with has_pending_command := false }, before ++ [Event.publish topic payload, log])

/-! ## SystemMonitorC -/

namespace SystemMonitorC

/-- The format of the response when no script was extracted. -/
def FMT_NO_SCRIPT : List Char :=
  "\x7b\"clientToken\":\"%s\",\"stdout\":\"\",\"stderr\":\"No script provided\",\"exitCode\":1\x7d".toList

/-- The format of the response after the script ran. -/
def FMT_RESULT : List Char :=
  "\x7b\"clientToken\":\"%s\",\"stdout\":\"%s\",\"stderr\":\"\",\"exitCode\":%d\x7d".toList

/-- The format of the response when `popen` failed. -/
def FMT_POPEN_FAILED : List Char :=
  "\x7b\"clientToken\":\"%s\",\"stdout\":\"\",\"stderr\":\"Failed to execute script\",\"exitCode\":1\x7d".toList

/-- The text `snprintf` is asked to write into `response`, before the bound of the
buffer is applied, and the shell calls made on the way. -/
def format_response (env : Env) (s : State) : List Char × List Event :=
  let cmd := cstr s.pending_command
  let client_token := parse_client_token cmd
  let script := parse_script cmd
  if script.length = 0 then
    (vformat FMT_NO_SCRIPT [FmtArg.s client_token], [])
  else
    match env.popen script with
    | some (out, status) =>
      let stdout_output := (fread 1023 out).map escape_byte
      (vformat FMT_RESULT
        [FmtArg.s client_token, FmtArg.s stdout_output, FmtArg.d (WEXITSTATUS status)],
        [Event.popen script])
    | none =>
      (vformat FMT_POPEN_FAILED [FmtArg.s client_token], [Event.popen script])

/-- The contents of `response[2048]` when it is published: `snprintf` with the size
2048 keeps the first 2047 bytes of the formatted text. -/
def build_response (env : Env) (s : State) : List Char :=
  (format_response env s).1.take (2048 - 1)

/-- The function `process_pending_command` of `com.example.SystemMonitorC/main.c`. -/
def process_pending_command (env : Env) (s : State) : State × List Event :=
  if !s.has_pending_command then (s, [])
  else publish_response env s (build_response env s) (format_response env s).2

end SystemMonitorC

/-! ## DeviceAgent -/

namespace DeviceAgent

/-- The format of the response when no script was extracted. -/
def FMT_NO_SCRIPT : List Char :=
  "\x7b\"clientToken\":\"%s\",\"stdout\":\"%s\",\"stderr\":\"No script provided\",\"exitCode\":1\x7d".toList

/-- The format of the response after the script ran. -/
def FMT_RESULT : List Char :=
  "\x7b\"clientToken\":\"%s\",\"stdout\":\"%s\",\"stderr\":\"\",\"exitCode\":%d\x7d".toList

/-- The format of the response when `popen` failed. -/
def FMT_POPEN_FAILED : List Char :=
  "\x7b\"clientToken\":\"%s\",\"stdout\":\"\",\"stderr\":\"Failed to execute script\",\"exitCode\":1\x7d".toList

/-- The initial contents of `examples[4096]`. -/
def EXAMPLES_DEFAULT : List Char := "See examples.txt file for command formats".toList

/-- The text copied into `stdout_output` when the script printed nothing and the
examples file cannot be opened. -/
def NO_OUTPUT_TEXT : List Char :=
  "Command returned no output. Examples file not found.".toList

/-- The array `examples` when the script is empty: the default text, or up to 4095
bytes of the examples file with line-feeds and double-quotes replaced. -/
def examples_text (env : Env) : List Char :=
  match env.examples_file with
  | some file => (fread 4095 file).map escape_examples_byte
  | none => EXAMPLES_DEFAULT

/-- The first `len` bytes of `stdout_output[90*1024]` before the escaping loop: up to
92159 bytes of the script output, or when that is empty up to 92159 bytes of the
examples file, or the fixed text. -/
def captured_or_fallback (env : Env) (out : List Char) : List Char :=
  let captured := fread 92159 out
  if captured.length = 0 then
    match env.examples_file with
    | some file => fread 92159 file
    | none => NO_OUTPUT_TEXT
  else captured

/-- The text `snprintf` is asked to write into `response`, before the bound of the
buffer is applied, and the shell calls made on the way. -/
def format_response (env : Env) (s : State) : List Char × List Event :=
  let cmd := cstr s.pending_command
  let client_token := parse_client_token cmd
  let script := parse_script cmd
  if script.length = 0 then
    (vformat FMT_NO_SCRIPT [FmtArg.s client_token, FmtArg.s (examples_text env)], [])
  else
    match env.popen script with
    | some (out, status) =>
      let stdout_output := (captured_or_fallback env out).map escape_byte
      (vformat FMT_RESULT
        [FmtArg.s client_token, FmtArg.s stdout_output, FmtArg.d (WEXITSTATUS status)],
        [Event.popen script])
    | none =>
      (vformat FMT_POPEN_FAILED [FmtArg.s client_token], [Event.popen script])

/-- The contents of `response[96*1024]` when it is published: `snprintf` with the size
98304 keeps the first 98303 bytes of the formatted text. -/
def build_response (env : Env) (s : State) : List Char :=
  (format_response env s).1.take (96 * 1024 - 1)

/-- The function `process_pending_command` of `com.example.DeviceAgent/main.c`. -/
def process_pending_command (env : Env) (s : State) : State × List Event :=
  if !s.has_pending_command then (s, [])
  else publish_response env s (build_response env s) (format_response env s).2

end DeviceAgent

/-! ## Telemetry: CPU usage -/

/-- The seven counters `fscanf` reads from the first line of `/proc/stat`. -/
structure ProcStat where
  user : Nat
  nice : Nat
  system : Nat
  idle : Nat
  iowait : Nat
  irq : Nat
  softirq : Nat

/-- The statics `prev_idle` and `prev_total` of `get_cpu_usage`. -/
structure CpuSample where
  prev_idle : Nat
  prev_total : Nat
  deriving DecidableEq

/-- The statics before the first call. -/
def CpuSample.init : CpuSample := { prev_idle := 0, prev_total := 0 }

/-- The number of values of an `unsigned long` (64 bits). -/
def ULONG_SIZE : Nat := 18446744073709551616

/-- Subtraction of `unsigned long` values. -/
def usub (a b : Nat) : Nat := (a % ULONG_SIZE + (ULONG_SIZE - b % ULONG_SIZE)) % ULONG_SIZE

/-- A finite binary floating-point value, `mant * 2 ^ exp` with the sign `neg`. Every
`double` and every `float` that is not an infinity or a NaN is of this form. -/
structure FloatVal where
  neg : Bool
  mant : Nat
  exp : Int
  deriving DecidableEq

/-- The real number a floating-point value stands for. -/
def FloatVal.toRat (x : FloatVal) : ℚ :=
  (if x.neg then -1 else 1) * (x.mant : ℚ) * (2 : ℚ) ^ x.exp

/-- The numerator of the magnitude of a floating-point value over `FloatVal.den`. -/
def FloatVal.num (x : FloatVal) : Nat :=
  if 0 ≤ x.exp then x.mant * 2 ^ x.exp.toNat else x.mant

/-- The denominator of the magnitude of a floating-point value, a power of two. -/
def FloatVal.den (x : FloatVal) : Nat :=
  if 0 ≤ x.exp then 1 else 2 ^ (-x.exp).toNat

/-- The number of binary digits of `n`, with at most `fuel` steps. -/
def bit_length_fuel : Nat → Nat → Nat
  | 0, _ => 0
  | fuel + 1, n => if n = 0 then 0 else bit_length_fuel fuel (n / 2) + 1

/-- The number of binary digits of `n` (0 for 0). -/
def bit_length (n : Nat) : Nat := bit_length_fuel n n

/-- The IEEE 754 rounding of the non-negative ratio `num / den` to a binary format with
`p` significant bits, to nearest with ties to even. The quotient is first taken with
more than `p` bits (`q`, with the remainder `r` as sticky information), then its `d`
low bits are dropped and the kept part is rounded up when what is dropped is more than
half a unit, or exactly half a unit with an odd kept part. The exponent range of the
format is not modelled: the values `get_cpu_usage` handles lie between `2 ^ (-63)` and
`2 ^ 76` (`cpu_expression_range`), where neither `double` nor `float` overflows or
becomes subnormal. -/
def round_nearest_even (p num den : Nat) : FloatVal :=
  if num = 0 then { neg := false, mant := 0, exp := 0 }
  else
    let k := p + 1 + bit_length den
    let q := num * 2 ^ k / den
    let r := num * 2 ^ k % den
    let d := bit_length q - p
    let f := q / 2 ^ d
    let rest := q % 2 ^ d
    let half := 2 ^ (d - 1)
    let up : Bool :=
      if rest < half then false
      else if half < rest then true
      else if r ≠ 0 then true
      else f % 2 = 1
    { neg := false, mant := if up then f + 1 else f, exp := (d : Int) - (k : Int) }

/-- The conversion of an `unsigned long` to `double` (53 significant bits). -/
def ulong_to_double (n : Nat) : FloatVal := round_nearest_even 53 n 1

/-- The product of two non-negative `double` values. -/
def double_mul (x y : FloatVal) : FloatVal :=
  round_nearest_even 53 (x.num * y.num) (x.den * y.den)

/-- The quotient of two non-negative `double` values, the divisor not zero. -/
def double_div (x y : FloatVal) : FloatVal :=
  round_nearest_even 53 (x.num * y.den) (x.den * y.num)

/-- The conversion of a non-negative `double` to `float` (24 significant bits). -/
def double_to_float (x : FloatVal) : FloatVal := round_nearest_even 24 x.num x.den

/-- The constant `100.0`. -/
def DOUBLE_100 : FloatVal := { neg := false, mant := 100, exp := 0 }

/-- The constant `0.0`. -/
def DOUBLE_0 : FloatVal := { neg := false, mant := 0, exp := 0 }

/-- The constant `-1.0`, as a `float`. -/
def FLOAT_MINUS_1 : FloatVal := { neg := true, mant := 1, exp := 0 }

namespace SystemMonitorC

/-- The function `get_cpu_usage`: `stat` is `none` when `/proc/stat` cannot be opened
or does not start with seven counters. The counters are `unsigned long`; the
expression `(diff_total - diff_idle) * 100.0 / diff_total` is evaluated in `double`,
one rounding for each conversion and each operation, and the result is stored in a
`float`. -/
def get_cpu_usage (stat : Option ProcStat) (st : CpuSample) : FloatVal × CpuSample :=
  match stat with
  | none => (FLOAT_MINUS_1, st)
  | some r =>
    let total :=
      (r.user + r.nice + r.system + r.idle + r.iowait + r.irq + r.softirq) % ULONG_SIZE
    let idle := r.idle % ULONG_SIZE
    let diff_idle := usub idle st.prev_idle
    let diff_total := usub total st.prev_total
    let cpu_percent : FloatVal :=
      double_to_float
        (if diff_total = 0 then DOUBLE_0
        else double_div (double_mul (ulong_to_double (usub diff_total diff_idle)) DOUBLE_100)
          (ulong_to_double diff_total))
    (cpu_percent, { prev_idle := idle, prev_total := total })

end SystemMonitorC

/-! ## Predicates used in the statements -/

/-- The needle occurs in the haystack at offset `pre.length` and at no smaller one. -/
def FirstOccurrence (hay needle pre post : List Char) : Prop :=
  hay = pre ++ needle ++ post ∧
    ∀ pre2 post2, hay = pre2 ++ needle ++ post2 → pre.length ≤ pre2.length

/-- The message holds the anchor first at offset `pre.length`, followed by `gap`, a
double-quote, the value `val`, a double-quote and `post`; neither `gap` nor `val`
holds a double-quote. -/
def FieldAt (cmd anchor pre gap val post : List Char) : Prop :=
  FirstOccurrence cmd anchor pre (gap ++ DQUOTE :: (val ++ DQUOTE :: post)) ∧
    DQUOTE ∉ gap ∧ DQUOTE ∉ val

/-- The three shapes a response can have, with the bounds on the variable parts, none
of which holds a NUL. -/
def ResponseShape (tokMax outMax : Nat) (r : List Char) : Prop :=
  ∃ tok out code : List Char, tok.length ≤ tokMax ∧ out.length ≤ outMax ∧ code.length ≤ 3 ∧
    NUL ∉ tok ∧ NUL ∉ out ∧ NUL ∉ code ∧
    ((r = "\x7b\"clientToken\":\"".toList ++ (tok ++ ("\",\"stdout\":\"".toList ++ (out
          ++ "\",\"stderr\":\"No script provided\",\"exitCode\":1\x7d".toList)))) ∨
     (r = "\x7b\"clientToken\":\"".toList ++ (tok ++ ("\",\"stdout\":\"".toList ++ (out
          ++ ("\",\"stderr\":\"\",\"exitCode\":".toList ++ (code ++ "\x7d".toList)))))) ∨
     (r = "\x7b\"clientToken\":\"".toList ++ (tok
          ++ "\",\"stdout\":\"\",\"stderr\":\"Failed to execute script\",\"exitCode\":1\x7d".toList)))

/-! ## Concrete inputs -/

/-- A device id used in the examples. -/
def dev0 : List Char := "thing-1".toList

/-- An environment in which `echo hello` prints `hello` and a line-feed and exits
with 0, `exit 7` exits with 7, and every other script fails to start. -/
def env0 : Env :=
  { popen := fun script =>
      if script = "echo hello".toList then some ("hello\n".toList, 0)
      else if script = "exit 7".toList then some ([], 7 * 256)
      else none
    examples_file := none
    ggipc_publish_to_iot_core := fun _ _ => GglError.GGL_ERR_OK }

/-- A command message with both fields. -/
def msg_hello : List Char :=
  "\x7b\"clientToken\":\"tok-1\",\"script\":\"echo hello\"\x7d".toList

/-- A second command message, offered while the first is still queued. -/
def msg_exit7 : List Char :=
  "\x7b\"clientToken\":\"tok-2\",\"script\":\"exit 7\"\x7d".toList

/-- An environment like `env0` whose publish call is rejected with an error code. -/
def env_publish_fails : Env :=
  { env0 with ggipc_publish_to_iot_core := fun _ _ => GglError.GGL_ERR_OTHER 1 }

/-- The slot of a fresh program after `msg_hello` arrived. -/
def slot_hello : State := (command_handler (State.init dev0) [] msg_hello).1

/-- The slot of a fresh program after `msg_exit7` arrived. -/
def slot_exit7 : State := (command_handler (State.init dev0) [] msg_exit7).1

/-- A command message whose script field is empty. -/
def msg_empty_script : List Char :=
  "\x7b\"clientToken\":\"tok-3\",\"script\":\"\"\x7d".toList

/-- The slot of a fresh program after `msg_empty_script` arrived. -/
def slot_empty_script : State :=
  (command_handler (State.init dev0) [] msg_empty_script).1

/-- A command message whose client token is 100 bytes long. -/
def msg_long_token : List Char :=
  "\x7b\"clientToken\":\"".toList ++ List.replicate 100 'a'
    ++ "\",\"script\":\"echo hello\"\x7d".toList

/-- The slot of a fresh program after `msg_long_token` arrived. -/
def slot_long_token : State := (command_handler (State.init dev0) [] msg_long_token).1

/-- A C string with a script value of 512 bytes, longer than any message the slot
accepts. -/
def cmd_long_script : List Char :=
  SCRIPT_ANCHOR ++ DQUOTE :: (List.replicate 512 'b' ++ [DQUOTE])

/-- Counters of a machine that has been busy for 100 ticks and idle for 100 ticks
since boot. -/
def stat_half_busy : ProcStat :=
  { user := 100, nice := 0, system := 0, idle := 100, iowait := 0, irq := 0, softirq := 0 }

/-- The counters of the line `cpu 1 0 0 2 0 0 0`: one busy tick out of three. -/
def stat_third_busy : ProcStat :=
  { user := 1, nice := 0, system := 0, idle := 2, iowait := 0, irq := 0, softirq := 0 }

/-! ## The fixed-shape record, as a JSON text -/

/-- A hexadecimal digit. -/
def is_hex_digit (c : Char) : Bool :=
  (48 ≤ c.toNat && c.toNat ≤ 57) || (65 ≤ c.toNat && c.toNat ≤ 70)
    || (97 ≤ c.toNat && c.toNat ≤ 102)

/-- The second byte of a two-byte escape of a JSON string: one of
`"`, `\`, `/`, `b`, `f`, `n`, `r`, `t`. -/
def is_simple_escape (c : Char) : Bool :=
  c = DQUOTE || c = BACKSLASH || c = '/' || c = 'b' || c = 'f' || c = 'n' || c = 'r'
    || c = 't'

/-- Reads a JSON string literal from behind its opening double-quote to its closing
double-quote (RFC 8259: no raw control byte, a backslash starts an escape) and returns
what follows; `none` when the literal is malformed or not terminated. -/
def json_string_tail : List Char → Option (List Char)
  | [] => none
  | c :: rest =>
    if c = DQUOTE then some rest
    else if c = BACKSLASH then
      match rest with
      | [] => none
      | e :: rest2 =>
        if is_simple_escape e then json_string_tail rest2
        else if e = 'u' then
          match rest2 with
          | h1 :: h2 :: h3 :: h4 :: rest3 =>
            if is_hex_digit h1 && is_hex_digit h2 && is_hex_digit h3 && is_hex_digit h4 then
              json_string_tail rest3
            else none
          | _ => none
        else none
    else if c.toNat < 32 then none
    else json_string_tail rest

/-- Reads the literal text `lit` and returns what follows. -/
def json_expect (lit : List Char) (l : List Char) : Option (List Char) :=
  if lit.isPrefixOf l then some (l.drop lit.length) else none

/-- Reads a JSON integer (an optional minus sign, then `0` or a digit string without a
leading zero) and returns what follows. -/
def json_int_tail (l : List Char) : Option (List Char) :=
  let body := if l.head? = some '-' then l.drop 1 else l
  let digits := body.takeWhile Char.isDigit
  if digits = [] then none
  else if 1 < digits.length ∧ digits.head? = some '0' then none
  else some (body.dropWhile Char.isDigit)

/-- The response is a JSON object with exactly the keys `clientToken`, `stdout`,
`stderr` (string literals) and `exitCode` (an integer), in this order and without
white space, as the formats of the components write it. -/
def is_response_record (r : List Char) : Bool :=
  match
    (((((((json_expect "\x7b\"clientToken\":\"".toList r).bind json_string_tail).bind
      (json_expect ",\"stdout\":\"".toList)).bind json_string_tail).bind
      (json_expect ",\"stderr\":\"".toList)).bind json_string_tail).bind
      (json_expect ",\"exitCode\":".toList)).bind json_int_tail with
  | some rest => rest = "\x7d".toList
  | none => false

/-- A byte that stands for itself inside a JSON string literal: not a double-quote,
not a backslash, not a control byte. -/
def json_plain (c : Char) : Bool :=
  c != DQUOTE && c != BACKSLASH && decide (32 ≤ c.toNat)

/-- Reads a JSON string literal from behind its opening double-quote and returns the
bytes between the double-quotes and what follows the closing one. -/
def json_string_lit (l : List Char) : Option (List Char × List Char) :=
  (json_string_tail l).map fun rest => (l.take (l.length - rest.length - 1), rest)

/-- Reads `,"stderr":"<text>","exitCode":<int>` and the closing brace, and returns
the text and the digits. -/
def response_tail_fields (l : List Char) : Option (List Char × List Char) :=
  (json_expect ",\"stderr\":\"".toList l).bind fun r5 =>
    (json_string_lit r5).bind fun err =>
      (json_expect ",\"exitCode\":".toList err.2).bind fun r7 =>
        (json_int_tail r7).bind fun r8 =>
          if r8 = "\x7d".toList then some (err.1, r7.take (r7.length - r8.length)) else none

/-- The values of the four fields of a response that is a record of the fixed shape:
`clientToken`, `stdout`, `stderr` as the bytes between their double-quotes, and the
digits of `exitCode`; `none` when the response is not such a record. -/
def response_fields (r : List Char) :
    Option (List Char × List Char × List Char × List Char) :=
  (json_expect "\x7b\"clientToken\":\"".toList r).bind fun r1 =>
    (json_string_lit r1).bind fun tok =>
      (json_expect ",\"stdout\":\"".toList tok.2).bind fun r3 =>
        (json_string_lit r3).bind fun out =>
          (response_tail_fields out.2).map fun t => (tok.1, out.1, t.1, t.2)

/-- A command message with an empty script whose client token is `a` and a backslash. -/
def msg_backslash_token : List Char :=
  "\x7b\"clientToken\":\"a\\\",\"script\":\"\"\x7d".toList

/-- The slot of a fresh program after `msg_backslash_token` arrived. -/
def slot_backslash_token : State :=
  (command_handler (State.init dev0) [] msg_backslash_token).1

/-- An environment like `env0` in which the examples file holds `Try "ls"`, a
line-feed and `or exit 1`. -/
def env_examples : Env :=
  { env0 with examples_file := some "Try \"ls\"\nor exit 1".toList }

/-- An environment in which `cat note` prints `He said "hi"`, a line-feed and `Bye`,
and `printf 'a\\'` prints `a` and a backslash; both exit with 0. -/
def env_note : Env :=
  { popen := fun script =>
      if script = "cat note".toList then some ("He said \"hi\"\nBye".toList, 0)
      else if script = "printf 'a\\\\'".toList then some ("a\\".toList, 0)
      else none
    examples_file := none
    ggipc_publish_to_iot_core := fun _ _ => GglError.GGL_ERR_OK }

/-- A command message that asks for `cat note`. -/
def msg_note : List Char :=
  "\x7b\"clientToken\":\"tok-4\",\"script\":\"cat note\"\x7d".toList

/-- The slot of a fresh program after `msg_note` arrived. -/
def slot_note : State := (command_handler (State.init dev0) [] msg_note).1

/-- A command message that asks for `printf 'a\\'`. -/
def msg_backslash : List Char :=
  "\x7b\"clientToken\":\"tok-5\",\"script\":\"printf 'a\\\\'\"\x7d".toList

/-- The slot of a fresh program after `msg_backslash` arrived. -/
def slot_backslash : State := (command_handler (State.init dev0) [] msg_backslash).1

/-! ## Lemmas on C strings -/

theorem cstr_length_le (buf : List Char) : (cstr buf).length ≤ buf.length := by
  unfold cstr
  exact (List.takeWhile_sublist _).length_le

theorem not_nul_of_mem_cstr {buf : List Char} {c : Char} (h : c ∈ cstr buf) : c ≠ NUL := by
  unfold cstr at h
  have := List.mem_takeWhile_imp h
  simpa using this

theorem nul_not_mem_cstr (buf : List Char) : NUL ∉ cstr buf :=
  fun h => not_nul_of_mem_cstr h rfl

theorem cstr_eq_self {l : List Char} (h : NUL ∉ l) : cstr l = l := by
  unfold cstr
  rw [List.takeWhile_eq_self_iff]
  intro c hc
  have : c ≠ NUL := fun e => h (e ▸ hc)
  simpa using this

theorem cstr_map_of_preserving (f : Char → Char) (hf : ∀ c, f c = NUL ↔ c = NUL)
    (l : List Char) : cstr (l.map f) = (cstr l).map f := by
  induction l with
  | nil => simp [cstr]
  | cons a l ih =>
    unfold cstr at ih ⊢
    by_cases ha : a = NUL
    · have : f a = NUL := (hf a).2 ha
      subst ha
      simp [List.takeWhile_cons, this]
    · have : f a ≠ NUL := fun e => ha ((hf a).1 e)
      simp [List.takeWhile_cons, ha, this, ih]

theorem strchr_append_cons {pre : List Char} (c : Char) (post : List Char)
    (h : c ∉ pre) : strchr (pre ++ c :: post) c = some (c :: post) := by
  induction pre with
  | nil => simp [strchr]
  | cons a pre ih =>
    have ha : a ≠ c := fun e => h (by simp [e])
    have hp : c ∉ pre := fun m => h (List.mem_cons_of_mem _ m)
    simp [strchr, ha, ih hp]

theorem strstr_first {hay needle pre post : List Char}
    (h : FirstOccurrence hay needle pre post) : strstr hay needle = some (needle ++ post) := by
  induction pre generalizing hay with
  | nil =>
    obtain ⟨h1, -⟩ := h
    subst h1
    cases needle with
    | nil =>
      cases post with
      | nil => simp [strstr]
      | cons b post => simp [strstr]
    | cons a needle =>
      simp only [List.nil_append, List.cons_append, strstr]
      have : (a :: needle).isPrefixOf (a :: (needle ++ post)) = true := by
        rw [ List.isPrefixOf_iff_prefix]
        exact List.prefix_append (a :: needle) post
      simp [this]
  | cons c pre ih =>
    obtain ⟨h1, h2⟩ := h
    subst h1
    have hnot : needle.isPrefixOf (c :: (pre ++ needle ++ post)) = false := by
      by_contra hc
      have hp : needle.isPrefixOf (c :: (pre ++ needle ++ post)) = true := by
        simpa using hc
      rw [ List.isPrefixOf_iff_prefix] at hp
      obtain ⟨t, ht⟩ := hp
      have := h2 [] t (by simp [ht])
      simp at this
    have hrec : FirstOccurrence (pre ++ needle ++ post) needle pre post := by
      refine ⟨rfl, ?_⟩
      intro pre2 post2 e
      have := h2 (c :: pre2) post2 (by simp [e])
      simpa using this
    have hrec2 := ih hrec
    show strstr (c :: (pre ++ needle ++ post)) needle = some (needle ++ post)
    rw [strstr, if_neg (by rw [hnot]; exact Bool.false_ne_true)]
    exact hrec2

theorem strstr_none {hay needle : List Char}
    (h : ∀ pre post, hay ≠ pre ++ needle ++ post) : strstr hay needle = none := by
  induction hay with
  | nil =>
    have : needle ≠ [] := fun e => h [] [] (by simp [e])
    simp [strstr, this]
  | cons c hay ih =>
    have hnot : needle.isPrefixOf (c :: hay) = false := by
      by_contra hc
      have hp : needle.isPrefixOf (c :: hay) = true := by simpa using hc
      rw [ List.isPrefixOf_iff_prefix] at hp
      obtain ⟨t, ht⟩ := hp
      exact h [] t (by simp [ht])
    have hrec : ∀ pre post, hay ≠ pre ++ needle ++ post := by
      intro pre post e
      exact h (c :: pre) post (by simp [e])
    rw [strstr, if_neg (by rw [hnot]; exact Bool.false_ne_true)]
    exact ih hrec

/-! ## Lemmas on field extraction -/

theorem cstr_append_of_no_nul {l : List Char} (r : List Char) (h : NUL ∉ l) :
    cstr (l ++ r) = l ++ cstr r := by
  induction l with
  | nil => rfl
  | cons a l ih =>
    have ha : a ≠ NUL := fun e => h (by simp [e])
    have hl : NUL ∉ l := fun m => h (List.mem_cons_of_mem _ m)
    have := ih hl
    unfold cstr at this ⊢
    simp [List.takeWhile_cons, ha, this]

theorem strncpy_value {v : List Char} (r : List Char) (h : NUL ∉ v) :
    strncpy (v ++ r) v.length = v := by
  unfold strncpy
  rw [cstr_append_of_no_nul r h]
  simp

theorem strncpy_length_le (src : List Char) (n : Nat) : (strncpy src n).length ≤ n := by
  unfold strncpy
  simp

theorem nul_not_mem_strncpy (src : List Char) (n : Nat) : NUL ∉ strncpy src n := by
  unfold strncpy
  intro h
  exact nul_not_mem_cstr src (List.mem_of_mem_take h)

theorem parse_field_of_fieldAt {cmd anchor pre gap val post : List Char} {cap : Nat}
    (h : FieldAt cmd anchor pre gap val post) (hnul : NUL ∉ val) :
    parse_field cmd anchor anchor.length cap = if val.length < cap then val else [] := by
  obtain ⟨hfirst, hgap, hval⟩ := h
  unfold parse_field
  rw [strstr_first hfirst]
  simp only [List.drop_left]
  rw [strchr_append_cons DQUOTE _ hgap]
  simp only [List.drop_succ_cons, List.drop_zero]
  rw [strchr_append_cons DQUOTE _ hval]
  have hlen : (val ++ DQUOTE :: post).length - (DQUOTE :: post).length = val.length := by
    simp
  simp only [hlen]
  rw [strncpy_value _ hnul]

theorem parse_field_length_le (cmd anchor : List Char) (skip cap : Nat) :
    (parse_field cmd anchor skip cap).length ≤ cap - 1 := by
  unfold parse_field
  split
  · simp
  · split
    · simp
    · dsimp only
      split
      · simp
      · split
        · rename_i hlt
          exact Nat.le_sub_one_of_lt (Nat.lt_of_le_of_lt (strncpy_length_le _ _) hlt)
        · simp

theorem nul_not_mem_parse_field (cmd anchor : List Char) (skip cap : Nat) :
    NUL ∉ parse_field cmd anchor skip cap := by
  unfold parse_field
  split
  · simp
  · split
    · simp
    · dsimp only
      split
      · simp
      · split
        · exact nul_not_mem_strncpy _ _
        · simp

theorem parse_field_no_anchor {cmd anchor : List Char} (skip cap : Nat)
    (h : ∀ pre post, cmd ≠ pre ++ anchor ++ post) : parse_field cmd anchor skip cap = [] := by
  unfold parse_field
  rw [strstr_none h]

/-! ## Lemmas on formatting -/

theorem cstr_parse_client_token (cmd : List Char) :
    cstr (parse_client_token cmd) = parse_client_token cmd :=
  cstr_eq_self (nul_not_mem_parse_field _ _ _ _)

theorem parse_client_token_length (cmd : List Char) : (parse_client_token cmd).length ≤ 63 :=
  parse_field_length_le cmd TOKEN_ANCHOR 14 64

theorem parse_script_length (cmd : List Char) : (parse_script cmd).length ≤ 511 :=
  parse_field_length_le cmd SCRIPT_ANCHOR 9 512

theorem vformat_no_script (tok : List Char) :
    vformat SystemMonitorC.FMT_NO_SCRIPT [FmtArg.s tok]
      = "\x7b\"clientToken\":\"".toList ++ (cstr tok
        ++ "\",\"stdout\":\"\",\"stderr\":\"No script provided\",\"exitCode\":1\x7d".toList) := by
  rfl

theorem vformat_result (tok out : List Char) (n : Int) :
    vformat SystemMonitorC.FMT_RESULT [FmtArg.s tok, FmtArg.s out, FmtArg.d n]
      = "\x7b\"clientToken\":\"".toList ++ (cstr tok ++ ("\",\"stdout\":\"".toList ++ (cstr out
        ++ ("\",\"stderr\":\"\",\"exitCode\":".toList ++ (fmt_d n ++ "\x7d".toList))))) := by
  rfl

theorem vformat_popen_failed (tok : List Char) :
    vformat SystemMonitorC.FMT_POPEN_FAILED [FmtArg.s tok]
      = "\x7b\"clientToken\":\"".toList ++ (cstr tok
        ++ "\",\"stdout\":\"\",\"stderr\":\"Failed to execute script\",\"exitCode\":1\x7d".toList) := by
  rfl

theorem vformat_no_script_examples (tok ex : List Char) :
    vformat DeviceAgent.FMT_NO_SCRIPT [FmtArg.s tok, FmtArg.s ex]
      = "\x7b\"clientToken\":\"".toList ++ (cstr tok ++ ("\",\"stdout\":\"".toList ++ (cstr ex
        ++ "\",\"stderr\":\"No script provided\",\"exitCode\":1\x7d".toList))) := by
  rfl

theorem vformat_topic (dev : List Char) :
    vformat "greengrass/device-agent/%s/logs".toList [FmtArg.s dev]
      = "greengrass/device-agent/".toList ++ (cstr dev ++ "/logs".toList) := by
  rfl

theorem response_topic_eq (s : State) (h : (cstr s.device_id).length ≤ 63) :
    response_topic s = "greengrass/device-agent/".toList ++ cstr s.device_id ++ "/logs".toList := by
  unfold response_topic snprintf
  rw [vformat_topic, List.take_of_length_le]
  · simp
  · simp only [List.length_append]
    have h1 : "greengrass/device-agent/".toList.length = 24 := by decide
    have h2 : "/logs".toList.length = 5 := by decide
    omega

/-! ## Exit status -/

theorem WEXITSTATUS_range (status : Int) : 0 ≤ WEXITSTATUS status ∧ WEXITSTATUS status ≤ 255 := by
  unfold WEXITSTATUS
  constructor
  · exact Int.ofNat_nonneg _
  · have h : (status % 4294967296).toNat &&& 0xff00 ≤ 0xff00 := Nat.and_le_right
    have h2 : ((status % 4294967296).toNat &&& 0xff00) >>> 8 ≤ 255 := by
      rw [Nat.shiftRight_eq_div_pow]
      omega
    exact_mod_cast h2

set_option maxRecDepth 100000 in
theorem WEXITSTATUS_exited_fin :
    ∀ c : Fin 256, WEXITSTATUS (exited_status c.val) = (c.val : Int) := by
  decide

theorem WEXITSTATUS_exited (c : Nat) (h : c ≤ 255) : WEXITSTATUS (exited_status c) = (c : Int) :=
  WEXITSTATUS_exited_fin ⟨c, by omega⟩

set_option maxRecDepth 100000 in
theorem toDigits_length_fin : ∀ n : Fin 256, (Nat.toDigits 10 n.val).length ≤ 3 := by
  decide

theorem fmt_d_of_nat (n : Nat) : fmt_d (n : Int) = Nat.toDigits 10 n := by
  unfold fmt_d
  have : ¬ ((n : Int) < 0) := by omega
  simp [this]

theorem fmt_d_WEXITSTATUS_length (status : Int) : (fmt_d (WEXITSTATUS status)).length ≤ 3 := by
  obtain ⟨h0, h1⟩ := WEXITSTATUS_range status
  obtain ⟨n, hn⟩ := Int.eq_ofNat_of_zero_le h0
  rw [hn, fmt_d_of_nat]
  have : n < 256 := by omega
  exact toDigits_length_fin ⟨n, this⟩

set_option maxRecDepth 100000 in
theorem nul_not_mem_toDigits_fin : ∀ n : Fin 256, NUL ∉ Nat.toDigits 10 n.val := by
  decide

theorem nul_not_mem_fmt_d_WEXITSTATUS (status : Int) : NUL ∉ fmt_d (WEXITSTATUS status) := by
  obtain ⟨h0, h1⟩ := WEXITSTATUS_range status
  obtain ⟨n, hn⟩ := Int.eq_ofNat_of_zero_le h0
  rw [hn, fmt_d_of_nat]
  have : n < 256 := by omega
  exact nul_not_mem_toDigits_fin ⟨n, this⟩

/-! ## The shape of the response, path by path -/

theorem smc_format_no_script (env : Env) {s : State}
    (h : parse_script (cstr s.pending_command) = []) :
    SystemMonitorC.format_response env s
      = ("\x7b\"clientToken\":\"".toList ++ (parse_client_token (cstr s.pending_command)
          ++ "\",\"stdout\":\"\",\"stderr\":\"No script provided\",\"exitCode\":1\x7d".toList),
        []) := by
  unfold SystemMonitorC.format_response
  simp only [h, List.length_nil, if_true]
  rw [vformat_no_script, cstr_parse_client_token]

theorem smc_format_result {env : Env} {s : State} {out : List Char} {status : Int}
    (h : parse_script (cstr s.pending_command) ≠ [])
    (hp : env.popen (parse_script (cstr s.pending_command)) = some (out, status)) :
    SystemMonitorC.format_response env s
      = ("\x7b\"clientToken\":\"".toList ++ (parse_client_token (cstr s.pending_command)
          ++ ("\",\"stdout\":\"".toList ++ (cstr ((fread 1023 out).map escape_byte)
          ++ ("\",\"stderr\":\"\",\"exitCode\":".toList
          ++ (fmt_d (WEXITSTATUS status) ++ "\x7d".toList))))),
        [Event.popen (parse_script (cstr s.pending_command))]) := by
  unfold SystemMonitorC.format_response
  have h0 : ¬ (parse_script (cstr s.pending_command)).length = 0 := by
    rw [List.length_eq_zero]
    exact h
  simp only [h0, if_false, hp]
  rw [vformat_result, cstr_parse_client_token]

theorem smc_format_popen_failed {env : Env} {s : State}
    (h : parse_script (cstr s.pending_command) ≠ [])
    (hp : env.popen (parse_script (cstr s.pending_command)) = none) :
    SystemMonitorC.format_response env s
      = ("\x7b\"clientToken\":\"".toList ++ (parse_client_token (cstr s.pending_command)
          ++ "\",\"stdout\":\"\",\"stderr\":\"Failed to execute script\",\"exitCode\":1\x7d".toList),
        [Event.popen (parse_script (cstr s.pending_command))]) := by
  unfold SystemMonitorC.format_response
  have h0 : ¬ (parse_script (cstr s.pending_command)).length = 0 := by
    rw [List.length_eq_zero]
    exact h
  simp only [h0, if_false, hp]
  rw [vformat_popen_failed, cstr_parse_client_token]

theorem da_format_no_script (env : Env) {s : State}
    (h : parse_script (cstr s.pending_command) = []) :
    DeviceAgent.format_response env s
      = ("\x7b\"clientToken\":\"".toList ++ (parse_client_token (cstr s.pending_command)
          ++ ("\",\"stdout\":\"".toList ++ (cstr (DeviceAgent.examples_text env)
          ++ "\",\"stderr\":\"No script provided\",\"exitCode\":1\x7d".toList))),
        []) := by
  unfold DeviceAgent.format_response
  simp only [h, List.length_nil, if_true]
  rw [vformat_no_script_examples, cstr_parse_client_token]

theorem da_format_result {env : Env} {s : State} {out : List Char} {status : Int}
    (h : parse_script (cstr s.pending_command) ≠ [])
    (hp : env.popen (parse_script (cstr s.pending_command)) = some (out, status)) :
    DeviceAgent.format_response env s
      = ("\x7b\"clientToken\":\"".toList ++ (parse_client_token (cstr s.pending_command)
          ++ ("\",\"stdout\":\"".toList
          ++ (cstr ((DeviceAgent.captured_or_fallback env out).map escape_byte)
          ++ ("\",\"stderr\":\"\",\"exitCode\":".toList
          ++ (fmt_d (WEXITSTATUS status) ++ "\x7d".toList))))),
        [Event.popen (parse_script (cstr s.pending_command))]) := by
  unfold DeviceAgent.format_response
  have h0 : ¬ (parse_script (cstr s.pending_command)).length = 0 := by
    rw [List.length_eq_zero]
    exact h
  simp only [h0, if_false, hp]
  have e : DeviceAgent.FMT_RESULT = SystemMonitorC.FMT_RESULT := rfl
  rw [e, vformat_result, cstr_parse_client_token]

theorem da_format_popen_failed {env : Env} {s : State}
    (h : parse_script (cstr s.pending_command) ≠ [])
    (hp : env.popen (parse_script (cstr s.pending_command)) = none) :
    DeviceAgent.format_response env s
      = ("\x7b\"clientToken\":\"".toList ++ (parse_client_token (cstr s.pending_command)
          ++ "\",\"stdout\":\"\",\"stderr\":\"Failed to execute script\",\"exitCode\":1\x7d".toList),
        [Event.popen (parse_script (cstr s.pending_command))]) := by
  unfold DeviceAgent.format_response
  have h0 : ¬ (parse_script (cstr s.pending_command)).length = 0 := by
    rw [List.length_eq_zero]
    exact h
  simp only [h0, if_false, hp]
  have e : DeviceAgent.FMT_POPEN_FAILED = SystemMonitorC.FMT_POPEN_FAILED := rfl
  rw [e, vformat_popen_failed, cstr_parse_client_token]

/-! ## Sizes -/

theorem cstr_map_fread_length (f : Char → Char) (n : Nat) (stream : List Char) :
    (cstr ((fread n stream).map f)).length ≤ n := by
  refine Nat.le_trans (cstr_length_le _) ?_
  unfold fread
  simp

theorem examples_text_length (env : Env) : (cstr (DeviceAgent.examples_text env)).length ≤ 4095 := by
  unfold DeviceAgent.examples_text
  cases env.examples_file with
  | none =>
    refine Nat.le_trans (cstr_length_le _) ?_
    decide
  | some file => exact cstr_map_fread_length _ _ _

theorem captured_or_fallback_length (env : Env) (out : List Char) :
    (DeviceAgent.captured_or_fallback env out).length ≤ 92159 := by
  unfold DeviceAgent.captured_or_fallback
  dsimp only
  split
  · cases env.examples_file with
    | none => decide
    | some file => simp [fread]
  · simp [fread]

theorem ResponseShape.length_le {tokMax outMax : Nat} {r : List Char}
    (h : ResponseShape tokMax outMax r) : r.length ≤ tokMax + outMax + 79 := by
  obtain ⟨tok, out, code, h1, h2, h3, -, -, -, h | h | h⟩ := h
  · subst h
    simp only [List.length_append]
    have e1 : "\x7b\"clientToken\":\"".toList.length = 16 := by decide
    have e2 : "\",\"stdout\":\"".toList.length = 12 := by decide
    have e3 : "\",\"stderr\":\"No script provided\",\"exitCode\":1\x7d".toList.length = 45 := by
      decide
    omega
  · subst h
    simp only [List.length_append]
    have e1 : "\x7b\"clientToken\":\"".toList.length = 16 := by decide
    have e2 : "\",\"stdout\":\"".toList.length = 12 := by decide
    have e3 : "\",\"stderr\":\"\",\"exitCode\":".toList.length = 25 := by decide
    have e4 : "\x7d".toList.length = 1 := by decide
    omega
  · subst h
    simp only [List.length_append]
    have e1 : "\x7b\"clientToken\":\"".toList.length = 16 := by decide
    have e3 :
        "\",\"stdout\":\"\",\"stderr\":\"Failed to execute script\",\"exitCode\":1\x7d".toList.length
          = 63 := by decide
    omega

theorem ResponseShape.getLast {tokMax outMax : Nat} {r : List Char}
    (h : ResponseShape tokMax outMax r) : r.getLast? = some (Char.ofNat 125) := by
  obtain ⟨tok, out, code, -, -, -, -, -, -, h | h | h⟩ := h <;> subst h <;>
    simp only [List.getLast?_append] <;> rfl

theorem smc_format_response_shape (env : Env) (s : State) :
    ResponseShape 63 1023 (SystemMonitorC.format_response env s).1 := by
  by_cases h : parse_script (cstr s.pending_command) = []
  · rw [smc_format_no_script env h]
    exact ⟨_, [], [], parse_client_token_length _, by simp, by simp,
      nul_not_mem_parse_field _ _ _ _, by simp, by simp, Or.inl rfl⟩
  · cases hp : env.popen (parse_script (cstr s.pending_command)) with
    | none =>
      rw [smc_format_popen_failed h hp]
      exact ⟨_, [], [], parse_client_token_length _, by simp, by simp,
        nul_not_mem_parse_field _ _ _ _, by simp, by simp, Or.inr (Or.inr rfl)⟩
    | some r =>
      obtain ⟨out, status⟩ := r
      rw [smc_format_result h hp]
      exact ⟨_, _, _, parse_client_token_length _, cstr_map_fread_length _ _ _,
        fmt_d_WEXITSTATUS_length status, nul_not_mem_parse_field _ _ _ _,
        nul_not_mem_cstr _, nul_not_mem_fmt_d_WEXITSTATUS status, Or.inr (Or.inl rfl)⟩

theorem da_format_response_shape (env : Env) (s : State) :
    ResponseShape 63 92159 (DeviceAgent.format_response env s).1 := by
  by_cases h : parse_script (cstr s.pending_command) = []
  · rw [da_format_no_script env h]
    exact ⟨_, _, [], parse_client_token_length _,
      Nat.le_trans (examples_text_length env) (by decide), by simp,
      nul_not_mem_parse_field _ _ _ _, nul_not_mem_cstr _, by simp, Or.inl rfl⟩
  · cases hp : env.popen (parse_script (cstr s.pending_command)) with
    | none =>
      rw [da_format_popen_failed h hp]
      exact ⟨_, [], [], parse_client_token_length _, by simp, by simp,
        nul_not_mem_parse_field _ _ _ _, by simp, by simp, Or.inr (Or.inr rfl)⟩
    | some r =>
      obtain ⟨out, status⟩ := r
      rw [da_format_result h hp]
      refine ⟨_, _, _, parse_client_token_length _, ?_,
        fmt_d_WEXITSTATUS_length status, nul_not_mem_parse_field _ _ _ _,
        nul_not_mem_cstr _, nul_not_mem_fmt_d_WEXITSTATUS status, Or.inr (Or.inl rfl)⟩
      refine Nat.le_trans (cstr_length_le _) ?_
      rw [List.length_map]
      exact captured_or_fallback_length env out

theorem smc_build_response_eq (env : Env) (s : State) :
    SystemMonitorC.build_response env s = (SystemMonitorC.format_response env s).1 := by
  unfold SystemMonitorC.build_response
  apply List.take_of_length_le
  have := (smc_format_response_shape env s).length_le
  omega

theorem da_build_response_eq (env : Env) (s : State) :
    DeviceAgent.build_response env s = (DeviceAgent.format_response env s).1 := by
  unfold DeviceAgent.build_response
  apply List.take_of_length_le
  have := (da_format_response_shape env s).length_le
  omega

theorem ResponseShape.nul_free {tokMax outMax : Nat} {r : List Char}
    (h : ResponseShape tokMax outMax r) : NUL ∉ r := by
  obtain ⟨tok, out, code, -, -, -, n1, n2, n3, h | h | h⟩ := h
  · subst h
    have e1 : NUL ∉ "\x7b\"clientToken\":\"".toList := by decide
    have e2 : NUL ∉ "\",\"stdout\":\"".toList := by decide
    have e3 : NUL ∉ "\",\"stderr\":\"No script provided\",\"exitCode\":1\x7d".toList := by
      decide
    simp only [List.mem_append, not_or]
    exact ⟨e1, n1, e2, n2, e3⟩
  · subst h
    have e1 : NUL ∉ "\x7b\"clientToken\":\"".toList := by decide
    have e2 : NUL ∉ "\",\"stdout\":\"".toList := by decide
    have e3 : NUL ∉ "\",\"stderr\":\"\",\"exitCode\":".toList := by decide
    have e4 : NUL ∉ "\x7d".toList := by decide
    simp only [List.mem_append, not_or]
    exact ⟨e1, n1, e2, n2, e3, n3, e4⟩
  · subst h
    have e1 : NUL ∉ "\x7b\"clientToken\":\"".toList := by decide
    have e3 :
        NUL ∉ "\",\"stdout\":\"\",\"stderr\":\"Failed to execute script\",\"exitCode\":1\x7d".toList := by
      decide
    simp only [List.mem_append, not_or]
    exact ⟨e1, n1, e3⟩

theorem smc_buffer_of_response (env : Env) (s : State) :
    ggl_buffer_from_null_term (SystemMonitorC.build_response env s)
      = SystemMonitorC.build_response env s := by
  unfold ggl_buffer_from_null_term
  apply cstr_eq_self
  rw [smc_build_response_eq]
  exact (smc_format_response_shape env s).nul_free

theorem da_buffer_of_response (env : Env) (s : State) :
    ggl_buffer_from_null_term (DeviceAgent.build_response env s)
      = DeviceAgent.build_response env s := by
  unfold ggl_buffer_from_null_term
  apply cstr_eq_self
  rw [da_build_response_eq]
  exact (da_format_response_shape env s).nul_free

theorem buffer_of_response_topic (s : State) :
    ggl_buffer_from_null_term (response_topic s) = response_topic s := by
  unfold ggl_buffer_from_null_term
  apply cstr_eq_self
  unfold response_topic snprintf
  rw [vformat_topic]
  intro h
  have h2 := List.mem_of_mem_take h
  have e1 : NUL ∉ "greengrass/device-agent/".toList := by decide
  have e2 : NUL ∉ "/logs".toList := by decide
  simp only [List.mem_append] at h2
  rcases h2 with h2 | h2 | h2
  · exact e1 h2
  · exact nul_not_mem_cstr _ h2
  · exact e2 h2

/-! ## Traces -/

theorem published_append (a b : List Event) : published (a ++ b) = published a ++ published b := by
  induction a with
  | nil => rfl
  | cons e a ih => cases e <;> simp [published, ih]

theorem shell_commands_append (a b : List Event) :
    shell_commands (a ++ b) = shell_commands a ++ shell_commands b := by
  induction a with
  | nil => rfl
  | cons e a ih => cases e <;> simp [shell_commands, ih]

theorem published_publish_response (env : Env) (s : State) (response : List Char)
    (before : List Event) (h : published before = []) :
    published (publish_response env s response before).2
      = [(ggl_buffer_from_null_term (response_topic s),
          ggl_buffer_from_null_term response)] := by
  unfold publish_response
  simp only [published_append, h, List.nil_append]
  split <;> rfl

theorem smc_published_format_response (env : Env) (s : State) :
    published (SystemMonitorC.format_response env s).2 = [] := by
  by_cases h : parse_script (cstr s.pending_command) = []
  · rw [smc_format_no_script env h]
    rfl
  · cases hp : env.popen (parse_script (cstr s.pending_command)) with
    | none =>
      rw [smc_format_popen_failed h hp]
      rfl
    | some r =>
      obtain ⟨out, status⟩ := r
      rw [smc_format_result h hp]
      rfl

theorem da_published_format_response (env : Env) (s : State) :
    published (DeviceAgent.format_response env s).2 = [] := by
  by_cases h : parse_script (cstr s.pending_command) = []
  · rw [da_format_no_script env h]
    rfl
  · cases hp : env.popen (parse_script (cstr s.pending_command)) with
    | none =>
      rw [da_format_popen_failed h hp]
      rfl
    | some r =>
      obtain ⟨out, status⟩ := r
      rw [da_format_result h hp]
      rfl

theorem smc_process_occupied (env : Env) {s : State}
    (h : s.has_pending_command = true) :
    (SystemMonitorC.process_pending_command env s).1 = { s with has_pending_command := false } ∧
      published (SystemMonitorC.process_pending_command env s).2
        = [(response_topic s, SystemMonitorC.build_response env s)] := by
  unfold SystemMonitorC.process_pending_command
  simp only [h, Bool.not_true, Bool.false_eq_true, if_false]
  refine ⟨rfl, ?_⟩
  rw [published_publish_response env s _ _ (smc_published_format_response env s),
    smc_buffer_of_response, buffer_of_response_topic]

theorem da_process_occupied (env : Env) {s : State}
    (h : s.has_pending_command = true) :
    (DeviceAgent.process_pending_command env s).1 = { s with has_pending_command := false } ∧
      published (DeviceAgent.process_pending_command env s).2
        = [(response_topic s, DeviceAgent.build_response env s)] := by
  unfold DeviceAgent.process_pending_command
  simp only [h, Bool.not_true, Bool.false_eq_true, if_false]
  refine ⟨rfl, ?_⟩
  rw [published_publish_response env s _ _ (da_published_format_response env s),
    da_buffer_of_response, buffer_of_response_topic]

theorem smc_process_empty (env : Env) {s : State}
    (h : s.has_pending_command = false) :
    SystemMonitorC.process_pending_command env s = (s, []) := by
  unfold SystemMonitorC.process_pending_command
  simp [h]

theorem da_process_empty (env : Env) {s : State}
    (h : s.has_pending_command = false) :
    DeviceAgent.process_pending_command env s = (s, []) := by
  unfold DeviceAgent.process_pending_command
  simp [h]

theorem cstr_append_nul_cons (payload r : List Char) :
    cstr (payload ++ NUL :: r) = cstr payload := by
  induction payload with
  | nil => simp [cstr]
  | cons a l ih =>
    unfold cstr at ih ⊢
    by_cases ha : a = NUL
    · subst ha
      simp [List.takeWhile_cons]
    · simp [List.takeWhile_cons, ha, ih]

theorem command_handler_accept {s : State} (topic : List Char) {payload : List Char}
    (h : s.has_pending_command = false) (hlen : payload.length < 256) :
    (command_handler s topic payload).1
      = { s with
          pending_command := payload ++ NUL :: s.pending_command.drop (payload.length + 1)
          has_pending_command := true } := by
  unfold command_handler
  simp [h, hlen]

theorem command_handler_occupied {s : State} (topic payload : List Char)
    (h : s.has_pending_command = true) : (command_handler s topic payload).1 = s := by
  unfold command_handler
  simp [h]

theorem command_handler_oversized (s : State) (topic : List Char) {payload : List Char}
    (hlen : 256 ≤ payload.length) : (command_handler s topic payload).1 = s := by
  unfold command_handler
  have : ¬ payload.length < 256 := by omega
  simp [this]

/-- A message that is queued from a free slot is read back by the string functions
up to its first NUL; a NUL-free message is read back whole. -/
theorem cstr_command_handler {s : State} (topic : List Char) {payload : List Char}
    (h : s.has_pending_command = false) (hlen : payload.length < 256) :
    cstr (command_handler s topic payload).1.pending_command = cstr payload := by
  rw [command_handler_accept topic h hlen]
  exact cstr_append_nul_cons _ _

theorem shell_commands_publish_response (env : Env) (s : State) (response : List Char)
    (before : List Event) :
    shell_commands (publish_response env s response before).2 = shell_commands before := by
  unfold publish_response
  simp only [shell_commands_append]
  split <;> simp [shell_commands]

/-! ## First occurrences, from the result of `strstr` -/

theorem strstr_reaches {hay needle : List Char} (pre2 post2 : List Char)
    (h : hay = pre2 ++ needle ++ post2) :
    ∃ r, strstr hay needle = some r ∧ hay.length ≤ r.length + pre2.length := by
  induction pre2 generalizing hay with
  | nil =>
    subst h
    cases needle with
    | nil =>
      cases post2 with
      | nil => exact ⟨[], by simp [strstr], by simp⟩
      | cons b post2 => exact ⟨b :: post2, by simp [strstr], by simp⟩
    | cons a needle =>
      refine ⟨a :: needle ++ post2, ?_, by simp⟩
      have hp : (a :: needle).isPrefixOf (a :: (needle ++ post2)) = true := by
        rw [ List.isPrefixOf_iff_prefix]
        exact List.prefix_append (a :: needle) post2
      show strstr (a :: (needle ++ post2)) (a :: needle) = _
      rw [strstr, if_pos hp]
      rfl
  | cons c pre2 ih =>
    subst h
    by_cases hp : needle.isPrefixOf (c :: (pre2 ++ needle ++ post2)) = true
    · refine ⟨c :: (pre2 ++ needle ++ post2), ?_, by simp⟩
      show strstr (c :: (pre2 ++ needle ++ post2)) needle = _
      rw [strstr, if_pos hp]
    · obtain ⟨r, hr, hl⟩ :=
        ih (rfl : pre2 ++ needle ++ post2 = pre2 ++ needle ++ post2)
      refine ⟨r, ?_, ?_⟩
      · show strstr (c :: (pre2 ++ needle ++ post2)) needle = _
        rw [strstr, if_neg hp]
        exact hr
      · simp only [List.cons_append, List.length_cons] at hl ⊢
        omega

theorem firstOccurrence_of_strstr {hay needle pre post : List Char}
    (hpre : hay = pre ++ needle ++ post) (h : strstr hay needle = some (needle ++ post)) :
    FirstOccurrence hay needle pre post := by
  refine ⟨hpre, fun pre2 post2 e => ?_⟩
  obtain ⟨r, hr, hl⟩ := strstr_reaches pre2 post2 e
  rw [h] at hr
  cases hr
  have : hay.length = pre.length + (needle ++ post).length := by
    rw [hpre]
    simp only [List.length_append]
    omega
  omega

theorem fieldAt_of_strstr {cmd anchor pre gap val post : List Char}
    (hpre : cmd = pre ++ anchor ++ (gap ++ DQUOTE :: (val ++ DQUOTE :: post)))
    (h : strstr cmd anchor = some (anchor ++ (gap ++ DQUOTE :: (val ++ DQUOTE :: post))))
    (hgap : DQUOTE ∉ gap) (hval : DQUOTE ∉ val) : FieldAt cmd anchor pre gap val post :=
  ⟨firstOccurrence_of_strstr hpre h, hgap, hval⟩

theorem parse_field_oversized {cmd anchor pre gap val post : List Char} {cap : Nat}
    (h : FieldAt cmd anchor pre gap val post) (hlong : cap ≤ val.length) :
    parse_field cmd anchor anchor.length cap = [] := by
  obtain ⟨hfirst, hgap, hval⟩ := h
  unfold parse_field
  rw [strstr_first hfirst]
  simp only [List.drop_left]
  rw [strchr_append_cons DQUOTE _ hgap]
  simp only [List.drop_succ_cons, List.drop_zero]
  rw [strchr_append_cons DQUOTE _ hval]
  have hlen : (val ++ DQUOTE :: post).length - (DQUOTE :: post).length = val.length := by
    simp
  simp only [hlen]
  rw [if_neg (by omega)]

theorem nul_not_mem_value {cmd anchor pre gap val post : List Char}
    (h : FieldAt cmd anchor pre gap val post) (hnul : NUL ∉ cmd) : NUL ∉ val := by
  intro hm
  apply hnul
  rw [h.1.1]
  simp [hm]

theorem value_length_lt {cmd anchor pre gap val post : List Char}
    (h : FieldAt cmd anchor pre gap val post) : val.length < cmd.length := by
  rw [h.1.1]
  simp only [List.length_append, List.length_cons]
  omega

theorem parse_client_token_of_fieldAt {cmd pre gap val post : List Char}
    (h : FieldAt cmd TOKEN_ANCHOR pre gap val post) (hnul : NUL ∉ val) :
    parse_client_token cmd = if val.length < 64 then val else [] :=
  parse_field_of_fieldAt h hnul

theorem parse_script_of_fieldAt {cmd pre gap val post : List Char}
    (h : FieldAt cmd SCRIPT_ANCHOR pre gap val post) (hnul : NUL ∉ val) :
    parse_script cmd = if val.length < 512 then val else [] :=
  parse_field_of_fieldAt h hnul

theorem parse_script_of_no_field {cmd : List Char}
    (h : ∀ pre post, cmd ≠ pre ++ SCRIPT_ANCHOR ++ post) : parse_script cmd = [] :=
  parse_field_no_anchor 9 512 h

theorem parse_script_of_empty_field {cmd pre gap post : List Char}
    (h : FieldAt cmd SCRIPT_ANCHOR pre gap [] post) : parse_script cmd = [] := by
  rw [parse_script_of_fieldAt h (by simp)]
  simp

/-! ## The head of every response -/

theorem smc_response_head (env : Env) (s : State) :
    ∃ rest, SystemMonitorC.build_response env s
      = "\x7b\"clientToken\":\"".toList ++ parse_client_token (cstr s.pending_command)
        ++ "\",\"stdout\":\"".toList ++ rest := by
  rw [smc_build_response_eq]
  by_cases h : parse_script (cstr s.pending_command) = []
  · rw [smc_format_no_script env h]
    exact ⟨"\",\"stderr\":\"No script provided\",\"exitCode\":1\x7d".toList, by
      simp only [List.append_assoc]
      rfl⟩
  · cases hp : env.popen (parse_script (cstr s.pending_command)) with
    | none =>
      rw [smc_format_popen_failed h hp]
      exact ⟨"\",\"stderr\":\"Failed to execute script\",\"exitCode\":1\x7d".toList, by
        simp only [List.append_assoc]
        rfl⟩
    | some r =>
      obtain ⟨out, status⟩ := r
      rw [smc_format_result h hp]
      exact ⟨_, by
        simp only [List.append_assoc]
        rfl⟩

theorem da_response_head (env : Env) (s : State) :
    ∃ rest, DeviceAgent.build_response env s
      = "\x7b\"clientToken\":\"".toList ++ parse_client_token (cstr s.pending_command)
        ++ "\",\"stdout\":\"".toList ++ rest := by
  rw [da_build_response_eq]
  by_cases h : parse_script (cstr s.pending_command) = []
  · rw [da_format_no_script env h]
    exact ⟨_, by
        simp only [List.append_assoc]
        rfl⟩
  · cases hp : env.popen (parse_script (cstr s.pending_command)) with
    | none =>
      rw [da_format_popen_failed h hp]
      exact ⟨"\",\"stderr\":\"Failed to execute script\",\"exitCode\":1\x7d".toList, by
        simp only [List.append_assoc]
        rfl⟩
    | some r =>
      obtain ⟨out, status⟩ := r
      rw [da_format_result h hp]
      exact ⟨_, by
        simp only [List.append_assoc]
        rfl⟩

theorem head_is_prefix {r rest tok : List Char}
    (h : r = "\x7b\"clientToken\":\"".toList ++ tok ++ "\",\"stdout\":\"".toList ++ rest) :
    ("\x7b\"clientToken\":\"".toList ++ tok ++ "\",\"".toList) <+: r := by
  refine ⟨"stdout\":\"".toList ++ rest, ?_⟩
  rw [h]
  simp only [List.append_assoc]
  rfl

/-! ## The command slot -/

/-- C2: `command_handler` leaves an occupied slot exactly as it is; on a free slot a
payload of 256 bytes or more is dropped, and a shorter payload is copied byte for byte,
followed by the terminator, and the flag is set; after a second offer the slot still
holds the first message, one processing call publishes exactly one response, the one
built from the first message, and the next processing call does nothing. -/
theorem command_handler_single_slot (env : Env) (s : State)
    (topic payload topic2 payload2 : List Char) :
    (s.has_pending_command = true → (command_handler s topic payload).1 = s) ∧
    (s.has_pending_command = false → 256 ≤ payload.length →
      (command_handler s topic payload).1 = s) ∧
    (s.has_pending_command = false → payload.length < 256 →
      (command_handler s topic payload).1.has_pending_command = true ∧
      (command_handler s topic payload).1.pending_command.take payload.length = payload ∧
      (command_handler s topic payload).1.pending_command.drop payload.length
        = NUL :: s.pending_command.drop (payload.length + 1) ∧
      (command_handler s topic payload).1.device_id = s.device_id ∧
      cstr (command_handler s topic payload).1.pending_command = cstr payload ∧
      (command_handler (command_handler s topic payload).1 topic2 payload2).1
        = (command_handler s topic payload).1 ∧
      published (SystemMonitorC.process_pending_command env
          (command_handler (command_handler s topic payload).1 topic2 payload2).1).2
        = [(response_topic s,
            SystemMonitorC.build_response env (command_handler s topic payload).1)] ∧
      published (DeviceAgent.process_pending_command env
          (command_handler (command_handler s topic payload).1 topic2 payload2).1).2
        = [(response_topic s,
            DeviceAgent.build_response env (command_handler s topic payload).1)] ∧
      (SystemMonitorC.process_pending_command env
          (SystemMonitorC.process_pending_command env
            (command_handler (command_handler s topic payload).1 topic2 payload2).1).1).2 = [] ∧
      (DeviceAgent.process_pending_command env
          (DeviceAgent.process_pending_command env
            (command_handler (command_handler s topic payload).1 topic2 payload2).1).1).2 = []) := by
  refine ⟨fun h => command_handler_occupied topic payload h,
    fun _ hlen => command_handler_oversized s topic hlen, fun h hlen => ?_⟩
  have hacc := command_handler_accept topic h hlen
  have hocc : (command_handler s topic payload).1.has_pending_command = true := by
    rw [hacc]
  have hsame := command_handler_occupied topic2 payload2 hocc
  have htopic : response_topic (command_handler s topic payload).1 = response_topic s := by
    rw [hacc]
    rfl
  refine ⟨hocc, ?_, ?_, ?_, cstr_command_handler topic h hlen, hsame, ?_, ?_, ?_, ?_⟩
  · rw [hacc]
    simp
  · rw [hacc]
    simp
  · rw [hacc]
  · rw [hsame, (smc_process_occupied env hocc).2, htopic]
  · rw [hsame, (da_process_occupied env hocc).2, htopic]
  · rw [hsame]
    have h1 := (smc_process_occupied env hocc).1
    rw [smc_process_empty env (by rw [h1])]
  · rw [hsame]
    have h1 := (da_process_occupied env hocc).1
    rw [da_process_empty env (by rw [h1])]

/-- C2 at a concrete slot: the free slot of a fresh program takes `msg_hello`, the
second offer `msg_exit7` changes nothing, an oversized payload is dropped, and the
single response published is the one for `echo hello`. -/
theorem command_handler_single_slot_witness :
    (State.init dev0).has_pending_command = false ∧ msg_hello.length < 256 ∧
    (command_handler (command_handler (State.init dev0) [] msg_hello).1 [] msg_exit7).1
      = (command_handler (State.init dev0) [] msg_hello).1 ∧
    published (SystemMonitorC.process_pending_command env0
        (command_handler (command_handler (State.init dev0) [] msg_hello).1 [] msg_exit7).1).2
      = [(response_topic (State.init dev0),
          SystemMonitorC.build_response env0
            (command_handler (State.init dev0) [] msg_hello).1)] ∧
    SystemMonitorC.build_response env0 (command_handler (State.init dev0) [] msg_hello).1
      = "\x7b\"clientToken\":\"tok-1\",\"stdout\":\"hello \",\"stderr\":\"\",\"exitCode\":0\x7d".toList ∧
    (command_handler (State.init dev0) [] (List.replicate 256 'a')).1 = State.init dev0 :=
  have h := command_handler_single_slot env0 (State.init dev0) [] msg_hello [] msg_exit7
  have h2 := h.2.2 (by decide) (by decide)
  ⟨by decide, by decide, h2.2.2.2.2.2.1, h2.2.2.2.2.2.2.1, by decide,
    (command_handler_single_slot env0 (State.init dev0) [] (List.replicate 256 'a') [] []).2.1
      (by decide) (by rw [List.length_replicate])⟩

/-! ## One processing call -/

/-- C9: on an occupied slot one call of `process_pending_command` makes exactly one
publish call, with the response that was built, on the topic
`greengrass/device-agent/<deviceId>/logs`, and returns with the flag cleared and the
buffer untouched, whatever the publish call returns, so the next call does nothing; on
a free slot the call changes nothing and makes no call at all. -/
theorem process_pending_command_publishes_once (env : Env) (s : State) :
    (s.has_pending_command = true → (cstr s.device_id).length ≤ 63 →
      published (SystemMonitorC.process_pending_command env s).2
        = [("greengrass/device-agent/".toList ++ cstr s.device_id ++ "/logs".toList,
            SystemMonitorC.build_response env s)] ∧
      published (DeviceAgent.process_pending_command env s).2
        = [("greengrass/device-agent/".toList ++ cstr s.device_id ++ "/logs".toList,
            DeviceAgent.build_response env s)] ∧
      (SystemMonitorC.process_pending_command env s).1
        = { s with has_pending_command := false } ∧
      (DeviceAgent.process_pending_command env s).1
        = { s with has_pending_command := false } ∧
      SystemMonitorC.process_pending_command env
          (SystemMonitorC.process_pending_command env s).1
        = ({ s with has_pending_command := false }, []) ∧
      DeviceAgent.process_pending_command env (DeviceAgent.process_pending_command env s).1
        = ({ s with has_pending_command := false }, [])) ∧
    (s.has_pending_command = false →
      SystemMonitorC.process_pending_command env s = (s, []) ∧
      DeviceAgent.process_pending_command env s = (s, [])) := by
  refine ⟨fun h hdev => ?_, fun h => ⟨smc_process_empty env h, da_process_empty env h⟩⟩
  have h1 := smc_process_occupied env h
  have h2 := da_process_occupied env h
  rw [response_topic_eq s hdev] at h1 h2
  refine ⟨h1.2, h2.2, h1.1, h2.1, ?_, ?_⟩
  · rw [h1.1]
    exact smc_process_empty env rfl
  · rw [h2.1]
    exact da_process_empty env rfl

/-- C9 at a concrete slot: with `msg_hello` queued and a publish call that fails, the
response is published once on `greengrass/device-agent/thing-1/logs` and the slot is
free afterwards. -/
theorem process_pending_command_publishes_once_witness :
    slot_hello.has_pending_command = true ∧ (cstr slot_hello.device_id).length ≤ 63 ∧
    published (SystemMonitorC.process_pending_command env_publish_fails slot_hello).2
      = [("greengrass/device-agent/".toList ++ cstr slot_hello.device_id ++ "/logs".toList,
          SystemMonitorC.build_response env_publish_fails slot_hello)] ∧
    (DeviceAgent.process_pending_command env_publish_fails slot_hello).1
      = { slot_hello with has_pending_command := false } ∧
    (State.init dev0).has_pending_command = false ∧
    DeviceAgent.process_pending_command env_publish_fails (State.init dev0)
      = (State.init dev0, []) :=
  have h := (process_pending_command_publishes_once env_publish_fails slot_hello).1
    (by decide) (by decide)
  ⟨by decide, by decide, h.1, h.2.2.2.1, by decide,
    ((process_pending_command_publishes_once env_publish_fails (State.init dev0)).2
      (by decide)).2⟩

/-! ## The response buffer -/

/-- C7: whatever is queued and whatever the script prints, the text handed to
`snprintf` is shorter than the response buffer (2048 bytes in SystemMonitorC, 98304 in
DeviceAgent), so the response is that text uncut: one of the three fixed templates
around a client token of at most 63 bytes, a stdout text of at most 1023 (92159) bytes
and an exit code of at most 3 digits, ending with the closing brace. -/
theorem response_fits_buffer (env : Env) (s : State) :
    ((SystemMonitorC.format_response env s).1.length < 2048 ∧
      SystemMonitorC.build_response env s = (SystemMonitorC.format_response env s).1 ∧
      ResponseShape 63 1023 (SystemMonitorC.build_response env s) ∧
      (SystemMonitorC.build_response env s).getLast? = some (Char.ofNat 125)) ∧
    ((DeviceAgent.format_response env s).1.length < 96 * 1024 ∧
      DeviceAgent.build_response env s = (DeviceAgent.format_response env s).1 ∧
      ResponseShape 63 92159 (DeviceAgent.build_response env s) ∧
      (DeviceAgent.build_response env s).getLast? = some (Char.ofNat 125)) := by
  have h1 := smc_format_response_shape env s
  have h2 := da_format_response_shape env s
  have l1 := h1.length_le
  have l2 := h2.length_le
  rw [smc_build_response_eq, da_build_response_eq]
  exact ⟨⟨by omega, rfl, h1, h1.getLast⟩, ⟨by omega, rfl, h2, h2.getLast⟩⟩

/-! ## The client token -/

/-- C1: a message the slot accepts (shorter than 256 bytes, no NUL) that holds
`"clientToken":"<tok>"` at the first occurrence of the anchor, with `<tok>` free of
double-quotes and at most 63 bytes long, yields a response that starts with
`{"clientToken":"<tok>","` in both components, whatever the script field holds and
whatever the shell does. -/
theorem client_token_echoed (env : Env) (s0 : State) (topic msg pre tok post : List Char)
    (hfree : s0.has_pending_command = false) (hlen : msg.length < 256) (hnul : NUL ∉ msg)
    (hmsg : msg = pre ++ TOKEN_ANCHOR ++ DQUOTE :: (tok ++ DQUOTE :: post))
    (hfirst : ∀ pre2 post2, msg = pre2 ++ TOKEN_ANCHOR ++ post2 → pre.length ≤ pre2.length)
    (hquote : DQUOTE ∉ tok) (htok : tok.length ≤ 63) :
    parse_client_token (cstr (command_handler s0 topic msg).1.pending_command) = tok ∧
    ("\x7b\"clientToken\":\"".toList ++ tok ++ "\",\"".toList)
      <+: SystemMonitorC.build_response env (command_handler s0 topic msg).1 ∧
    ("\x7b\"clientToken\":\"".toList ++ tok ++ "\",\"".toList)
      <+: DeviceAgent.build_response env (command_handler s0 topic msg).1 := by
  have hfield : FieldAt msg TOKEN_ANCHOR pre [] tok post :=
    ⟨⟨hmsg, hfirst⟩, by simp, hquote⟩
  have hcmd : cstr (command_handler s0 topic msg).1.pending_command = msg := by
    rw [cstr_command_handler topic hfree hlen, cstr_eq_self hnul]
  have hparse : parse_client_token msg = tok := by
    rw [parse_client_token_of_fieldAt hfield (nul_not_mem_value hfield hnul),
      if_pos (by omega)]
  obtain ⟨r1, h1⟩ := smc_response_head env (command_handler s0 topic msg).1
  obtain ⟨r2, h2⟩ := da_response_head env (command_handler s0 topic msg).1
  rw [hcmd, hparse] at h1 h2
  rw [hcmd]
  exact ⟨hparse, head_is_prefix h1, head_is_prefix h2⟩

/-- C1 at a concrete message: `msg_hello` carries the token `tok-1`, and both
responses start with `{"clientToken":"tok-1","`. -/
theorem client_token_echoed_witness :
    (State.init dev0).has_pending_command = false ∧ msg_hello.length < 256 ∧
    NUL ∉ msg_hello ∧
    ("\x7b\"clientToken\":\"".toList ++ "tok-1".toList ++ "\",\"".toList)
      <+: SystemMonitorC.build_response env0 (command_handler (State.init dev0) [] msg_hello).1 ∧
    ("\x7b\"clientToken\":\"".toList ++ "tok-1".toList ++ "\",\"".toList)
      <+: DeviceAgent.build_response env0 (command_handler (State.init dev0) [] msg_hello).1 :=
  have hocc : FirstOccurrence msg_hello TOKEN_ANCHOR "\x7b".toList
      (DQUOTE :: ("tok-1".toList ++ DQUOTE :: ",\"script\":\"echo hello\"\x7d".toList)) :=
    firstOccurrence_of_strstr (by decide) (by decide)
  have h := client_token_echoed env0 (State.init dev0) [] msg_hello "\x7b".toList
    "tok-1".toList ",\"script\":\"echo hello\"\x7d".toList
    (by decide) (by decide) (by decide) (by decide) hocc.2 (by decide) (by decide)
  ⟨by decide, by decide, by decide, h.2.1, h.2.2⟩

set_option maxRecDepth 100000 in
/-- C8 as stated fails: a 100-byte client token is not echoed as its first 63 bytes;
nothing is copied and the response carries an empty client token. -/
theorem long_token_not_truncated :
    parse_client_token (cstr slot_long_token.pending_command) = [] ∧
    parse_client_token (cstr slot_long_token.pending_command)
      ≠ (List.replicate 100 'a').take 63 ∧
    SystemMonitorC.build_response env0 slot_long_token
      = "\x7b\"clientToken\":\"\",\"stdout\":\"hello \",\"stderr\":\"\",\"exitCode\":0\x7d".toList ∧
    DeviceAgent.build_response env0 slot_long_token
      = "\x7b\"clientToken\":\"\",\"stdout\":\"hello \",\"stderr\":\"\",\"exitCode\":0\x7d".toList := by
  decide

/-- C8, amended: field extraction does not truncate. When the value found for a field
is as long as the destination or longer (64 bytes or more for the client token, 512 or
more for the script) nothing is copied and the extracted value is empty; a queued
message with such a client token gets a response with an empty client token; and a
queued message, being shorter than 256 bytes, never holds a script value that long, so
its script value is extracted whole. -/
theorem oversized_value_not_copied (env : Env) (s0 : State)
    (topic msg pre gap val post : List Char)
    (hfree : s0.has_pending_command = false) (hlen : msg.length < 256) (hnul : NUL ∉ msg)
    (hfield : FieldAt msg TOKEN_ANCHOR pre gap val post) (hlong : 63 < val.length) :
    parse_client_token (cstr (command_handler s0 topic msg).1.pending_command) = [] ∧
    ("\x7b\"clientToken\":\"\",\"".toList
      <+: SystemMonitorC.build_response env (command_handler s0 topic msg).1) ∧
    ("\x7b\"clientToken\":\"\",\"".toList
      <+: DeviceAgent.build_response env (command_handler s0 topic msg).1) ∧
    (∀ cmd anchor pre2 gap2 val2 post2 cap, FieldAt cmd anchor pre2 gap2 val2 post2 →
      cap ≤ val2.length → parse_field cmd anchor anchor.length cap = []) ∧
    (∀ pre2 gap2 val2 post2, FieldAt msg SCRIPT_ANCHOR pre2 gap2 val2 post2 →
      val2.length ≤ 511 ∧
      parse_script (cstr (command_handler s0 topic msg).1.pending_command) = val2) := by
  have hcmd : cstr (command_handler s0 topic msg).1.pending_command = msg := by
    rw [cstr_command_handler topic hfree hlen, cstr_eq_self hnul]
  have hparse : parse_client_token msg = [] := parse_field_oversized hfield (by omega)
  obtain ⟨r1, h1⟩ := smc_response_head env (command_handler s0 topic msg).1
  obtain ⟨r2, h2⟩ := da_response_head env (command_handler s0 topic msg).1
  rw [hcmd, hparse] at h1 h2
  rw [hcmd]
  refine ⟨hparse, head_is_prefix h1, head_is_prefix h2,
    fun _ _ _ _ _ _ _ hf hc => parse_field_oversized hf hc, fun pre2 gap2 val2 post2 hf => ?_⟩
  have hv := value_length_lt hf
  refine ⟨by omega, ?_⟩
  rw [parse_script_of_fieldAt hf (nul_not_mem_value hf hnul), if_pos (by omega)]

set_option maxRecDepth 100000 in
/-- C8, amended, at concrete inputs: the 100-byte token of `msg_long_token` is dropped
and the response starts with an empty client token, while its script is extracted
whole; a 512-byte script value is dropped as well. -/
theorem oversized_value_not_copied_witness :
    (State.init dev0).has_pending_command = false ∧ msg_long_token.length < 256 ∧
    NUL ∉ msg_long_token ∧ 63 < (List.replicate 100 'a').length ∧
    parse_client_token (cstr slot_long_token.pending_command) = [] ∧
    ("\x7b\"clientToken\":\"\",\"".toList
      <+: SystemMonitorC.build_response env0 slot_long_token) ∧
    parse_script (cstr slot_long_token.pending_command) = "echo hello".toList ∧
    512 ≤ (List.replicate 512 'b').length ∧
    parse_field cmd_long_script SCRIPT_ANCHOR SCRIPT_ANCHOR.length 512 = [] :=
  have hf : FieldAt msg_long_token TOKEN_ANCHOR "\x7b".toList [] (List.replicate 100 'a')
      ",\"script\":\"echo hello\"\x7d".toList :=
    fieldAt_of_strstr (by decide) (by decide) (by decide) (by decide)
  have hs : FieldAt msg_long_token SCRIPT_ANCHOR
      ("\x7b\"clientToken\":\"".toList ++ List.replicate 100 'a' ++ "\",".toList) []
      "echo hello".toList "\x7d".toList :=
    fieldAt_of_strstr (by decide) (by decide) (by decide) (by decide)
  have hl : FieldAt cmd_long_script SCRIPT_ANCHOR [] [] (List.replicate 512 'b') [] :=
    fieldAt_of_strstr (by decide) (by decide) (by decide) (by decide)
  have h := oversized_value_not_copied env0 (State.init dev0) [] msg_long_token
    "\x7b".toList [] (List.replicate 100 'a') ",\"script\":\"echo hello\"\x7d".toList
    (by decide) (by decide) (by decide) hf (by rw [List.length_replicate]; omega)
  ⟨by decide, by decide, by decide, by rw [List.length_replicate]; omega, h.1, h.2.1,
    (h.2.2.2.2 _ _ _ _ hs).2, by rw [List.length_replicate],
    h.2.2.2.1 _ _ _ _ _ _ _ hl (by rw [List.length_replicate])⟩

/-! ## The exit code -/

theorem fmt_d_WEXITSTATUS (status : Int) :
    fmt_d (WEXITSTATUS status) = Nat.toDigits 10 (WEXITSTATUS status).toNat := by
  obtain ⟨n, hn⟩ := Int.eq_ofNat_of_zero_le (WEXITSTATUS_range status).1
  rw [hn, fmt_d_of_nat]
  simp

theorem exit_code_shape (env : Env) (s : State) (out : List Char) (status : Int)
    (hscript : parse_script (cstr s.pending_command) ≠ [])
    (hp : env.popen (parse_script (cstr s.pending_command)) = some (out, status)) :
    SystemMonitorC.build_response env s
      = "\x7b\"clientToken\":\"".toList ++ parse_client_token (cstr s.pending_command)
        ++ "\",\"stdout\":\"".toList ++ cstr ((fread 1023 out).map escape_byte)
        ++ "\",\"stderr\":\"\",\"exitCode\":".toList
        ++ Nat.toDigits 10 (WEXITSTATUS status).toNat ++ "\x7d".toList ∧
    DeviceAgent.build_response env s
      = "\x7b\"clientToken\":\"".toList ++ parse_client_token (cstr s.pending_command)
        ++ "\",\"stdout\":\"".toList
        ++ cstr ((DeviceAgent.captured_or_fallback env out).map escape_byte)
        ++ "\",\"stderr\":\"\",\"exitCode\":".toList
        ++ Nat.toDigits 10 (WEXITSTATUS status).toNat ++ "\x7d".toList := by
  constructor
  · rw [smc_build_response_eq, smc_format_result hscript hp, fmt_d_WEXITSTATUS]
    simp only [List.append_assoc]
  · rw [da_build_response_eq, da_format_result hscript hp, fmt_d_WEXITSTATUS]
    simp only [List.append_assoc]

/-- C6: when the shell starts, the `exitCode` written in the response is the value of
`WEXITSTATUS` on the status word of `pclose`, in decimal; that value lies in 0..255
for every status word, and for a script that terminates normally with exit code `c`
(0 to 255) it is `c` itself, not the status word `c * 256`. -/
theorem exit_code_reported (env : Env) (s : State) (out : List Char) (status : Int)
    (hscript : parse_script (cstr s.pending_command) ≠ [])
    (hp : env.popen (parse_script (cstr s.pending_command)) = some (out, status)) :
    SystemMonitorC.build_response env s
      = "\x7b\"clientToken\":\"".toList ++ parse_client_token (cstr s.pending_command)
        ++ "\",\"stdout\":\"".toList ++ cstr ((fread 1023 out).map escape_byte)
        ++ "\",\"stderr\":\"\",\"exitCode\":".toList
        ++ Nat.toDigits 10 (WEXITSTATUS status).toNat ++ "\x7d".toList ∧
    DeviceAgent.build_response env s
      = "\x7b\"clientToken\":\"".toList ++ parse_client_token (cstr s.pending_command)
        ++ "\",\"stdout\":\"".toList
        ++ cstr ((DeviceAgent.captured_or_fallback env out).map escape_byte)
        ++ "\",\"stderr\":\"\",\"exitCode\":".toList
        ++ Nat.toDigits 10 (WEXITSTATUS status).toNat ++ "\x7d".toList ∧
    (WEXITSTATUS status).toNat ≤ 255 ∧
    (∀ c : Nat, c ≤ 255 → status = exited_status c → (WEXITSTATUS status).toNat = c) := by
  have h := exit_code_shape env s out status hscript hp
  refine ⟨h.1, h.2, ?_, ?_⟩
  · have := (WEXITSTATUS_range status).2
    omega
  · intro c hc e
    rw [e, WEXITSTATUS_exited c hc]
    simp

/-- C6 at concrete scripts: `exit 7` gives `exitCode` 7 and `echo hello` gives
`exitCode` 0. -/
theorem exit_code_reported_witness :
    parse_script (cstr slot_exit7.pending_command) ≠ [] ∧
    env0.popen (parse_script (cstr slot_exit7.pending_command)) = some ([], exited_status 7) ∧
    (WEXITSTATUS (exited_status 7)).toNat = 7 ∧
    SystemMonitorC.build_response env0 slot_exit7
      = "\x7b\"clientToken\":\"tok-2\",\"stdout\":\"\",\"stderr\":\"\",\"exitCode\":7\x7d".toList ∧
    SystemMonitorC.build_response env0 slot_hello
      = "\x7b\"clientToken\":\"tok-1\",\"stdout\":\"hello \",\"stderr\":\"\",\"exitCode\":0\x7d".toList ∧
    DeviceAgent.build_response env0 slot_hello
      = "\x7b\"clientToken\":\"tok-1\",\"stdout\":\"hello \",\"stderr\":\"\",\"exitCode\":0\x7d".toList :=
  have h7 := exit_code_reported env0 slot_exit7 [] (exited_status 7) (by decide) (by decide)
  have h0 := exit_code_reported env0 slot_hello "hello\n".toList (exited_status 0)
    (by decide) (by decide)
  ⟨by decide, by decide, h7.2.2.2 7 (by decide) rfl, h7.1.trans (by decide),
    h0.1.trans (by decide), h0.2.1.trans (by decide)⟩

/-! ## The first CPU sample -/

theorem usub_zero_right (a : Nat) : usub a 0 = a % ULONG_SIZE := by
  unfold usub
  simp [ULONG_SIZE]

theorem usub_eq_zero_iff {a b : Nat} (ha : a < ULONG_SIZE) (hb : b < ULONG_SIZE) :
    usub a b = 0 ↔ a = b := by
  unfold usub ULONG_SIZE at *
  omega

theorem usub_of_le {a b : Nat} (ha : a < ULONG_SIZE) (hb : b ≤ a) : usub a b = a - b := by
  unfold usub ULONG_SIZE at *
  omega

theorem bit_length_fuel_upper (fuel : Nat) :
    ∀ n, n ≤ fuel → n < 2 ^ bit_length_fuel fuel n := by
  induction fuel with
  | zero =>
    intro n hn
    have : n = 0 := by omega
    subst this
    simp [bit_length_fuel]
  | succ fuel ih =>
    intro n hn
    by_cases h0 : n = 0
    · subst h0
      simp [bit_length_fuel]
    · have h2 : n / 2 ≤ fuel := by omega
      have := ih (n / 2) h2
      simp only [bit_length_fuel, h0, if_false, pow_succ]
      omega

theorem bit_length_fuel_lower (fuel : Nat) :
    ∀ n, n ≠ 0 → 2 ^ (bit_length_fuel fuel n - 1) ≤ n := by
  induction fuel with
  | zero =>
    intro n hn
    simp only [bit_length_fuel, Nat.zero_sub, pow_zero]
    omega
  | succ fuel ih =>
    intro n hn
    simp only [bit_length_fuel, hn, if_false, Nat.add_sub_cancel]
    by_cases h2 : n / 2 = 0
    · have e : bit_length_fuel fuel (n / 2) = 0 := by
        rw [h2]
        cases fuel <;> simp [bit_length_fuel]
      rw [e, pow_zero]
      omega
    · have := ih (n / 2) h2
      by_cases hb : bit_length_fuel fuel (n / 2) = 0
      · rw [hb, pow_zero]
        omega
      · have e : bit_length_fuel fuel (n / 2)
            = (bit_length_fuel fuel (n / 2) - 1) + 1 := by omega
        rw [e, pow_succ]
        omega

theorem lt_two_pow_bit_length (n : Nat) : n < 2 ^ bit_length n :=
  bit_length_fuel_upper n n (Nat.le_refl n)

theorem two_pow_bit_length_le {n : Nat} (h : n ≠ 0) : 2 ^ (bit_length n - 1) ≤ n :=
  bit_length_fuel_lower n n h

theorem round_abs_le (m f : Nat) {rest r den d : Nat} {up : Bool} (hden : 0 < den)
    (hr : r < den) (hd : 1 ≤ d) (hrest : rest < 2 ^ d)
    (hm : m = if up = true then f + 1 else f)
    (hfalse : up = false → rest < 2 ^ (d - 1) ∨ (rest = 2 ^ (d - 1) ∧ r = 0))
    (htrue : up = true → 2 ^ (d - 1) ≤ rest) :
    |(m : ℚ) * 2 ^ d - ((2 : ℚ) ^ d * f + rest) - (r : ℚ) / den| ≤ (2 : ℚ) ^ d / 2 := by
  have hdq : (0 : ℚ) < den := by exact_mod_cast hden
  have hρ0 : (0 : ℚ) ≤ (r : ℚ) / den := div_nonneg (by exact_mod_cast Nat.zero_le r) hdq.le
  have hρ1 : (r : ℚ) / den < 1 := by
    rw [div_lt_one hdq]
    exact_mod_cast hr
  have hpow : (2 : ℚ) ^ d = 2 * 2 ^ (d - 1) := by
    have : d = (d - 1) + 1 := by omega
    rw [this, pow_succ]
    simp
    ring
  have hrestq : (rest : ℚ) < 2 ^ d := by exact_mod_cast hrest
  have hrestq1 : (rest : ℚ) + 1 ≤ 2 ^ d := by exact_mod_cast hrest
  rw [abs_le]
  cases up with
  | false =>
    simp only [Bool.false_eq_true, if_false] at hm
    subst hm
    rcases hfalse rfl with h | ⟨h, h0⟩
    · have h1 : (rest : ℚ) + 1 ≤ 2 ^ (d - 1) := by exact_mod_cast h
      constructor <;> nlinarith
    · have h1 : (rest : ℚ) = 2 ^ (d - 1) := by exact_mod_cast h
      have h2 : (r : ℚ) / den = 0 := by simp [h0]
      constructor <;> nlinarith
  | true =>
    simp only [if_true] at hm
    subst hm
    have h1 : (2 : ℚ) ^ (d - 1) ≤ rest := by exact_mod_cast htrue rfl
    push_cast
    constructor <;> nlinarith

theorem round_abs_tie (m f : Nat) {rest r den d : Nat} {up : Bool} (hden : 0 < den)
    (hr : r < den) (hd : 1 ≤ d) (hrest : rest < 2 ^ d)
    (hm : m = if up = true then f + 1 else f)
    (hfalse : up = false → rest < 2 ^ (d - 1) ∨ (rest = 2 ^ (d - 1) ∧ r = 0))
    (htrue : up = true → 2 ^ (d - 1) ≤ rest)
    (htie : |(m : ℚ) * 2 ^ d - ((2 : ℚ) ^ d * f + rest) - (r : ℚ) / den| = (2 : ℚ) ^ d / 2) :
    rest = 2 ^ (d - 1) ∧ r = 0 := by
  have hdq : (0 : ℚ) < den := by exact_mod_cast hden
  have hρ0 : (0 : ℚ) ≤ (r : ℚ) / den := div_nonneg (by exact_mod_cast Nat.zero_le r) hdq.le
  have hρ1 : (r : ℚ) / den < 1 := by
    rw [div_lt_one hdq]
    exact_mod_cast hr
  have hpow : (2 : ℚ) ^ d = 2 * 2 ^ (d - 1) := by
    have : d = (d - 1) + 1 := by omega
    rw [this, pow_succ]
    simp
    ring
  have hrestq1 : (rest : ℚ) + 1 ≤ 2 ^ d := by exact_mod_cast hrest
  have hr0 : (r : ℚ) / den = 0 → r = 0 := by
    intro h
    rcases div_eq_zero_iff.1 h with h | h
    · exact_mod_cast h
    · exact absurd h hdq.ne'
  cases up with
  | false =>
    simp only [Bool.false_eq_true, if_false] at hm
    subst hm
    rcases hfalse rfl with h | h
    · exfalso
      have h1 : (rest : ℚ) + 1 ≤ 2 ^ (d - 1) := by exact_mod_cast h
      have e : (m : ℚ) * 2 ^ d - ((2 : ℚ) ^ d * m + rest) - (r : ℚ) / den
          = -((rest : ℚ) + (r : ℚ) / den) := by ring
      rw [e, abs_neg, abs_of_nonneg (by positivity)] at htie
      nlinarith
    · exact h
  | true =>
    simp only [if_true] at hm
    subst hm
    have h1 : (2 : ℚ) ^ (d - 1) ≤ rest := by exact_mod_cast htrue rfl
    have e : ((f + 1 : ℕ) : ℚ) * 2 ^ d - ((2 : ℚ) ^ d * f + rest) - (r : ℚ) / den
        = (2 : ℚ) ^ d - rest - (r : ℚ) / den := by
      push_cast
      ring
    rw [e, abs_of_nonneg (by nlinarith)] at htie
    have hρ : (r : ℚ) / den = 0 := by nlinarith
    have hrest_eq : (rest : ℚ) = 2 ^ (d - 1) := by nlinarith
    exact ⟨by exact_mod_cast hrest_eq, hr0 hρ⟩

/-- The model of the rounding is the IEEE rounding to nearest: the result has `p`
significant bits, differs from the exact ratio by at most half a unit in the last
place, and has an even mantissa when it is exactly half a unit away. -/
theorem round_nearest_even_spec {p num den : Nat} (hp : 0 < p) (hnum : num ≠ 0)
    (hden : den ≠ 0) :
    2 ^ (p - 1) ≤ (round_nearest_even p num den).mant ∧
    (round_nearest_even p num den).mant ≤ 2 ^ p ∧
    |(round_nearest_even p num den).toRat - (num : ℚ) / den|
      ≤ (2 : ℚ) ^ (round_nearest_even p num den).exp / 2 ∧
    (|(round_nearest_even p num den).toRat - (num : ℚ) / den|
        = (2 : ℚ) ^ (round_nearest_even p num den).exp / 2 →
      (round_nearest_even p num den).mant % 2 = 0) := by
  unfold round_nearest_even
  simp only [hnum, if_false]
  generalize hk : p + 1 + bit_length den = k
  generalize hq : num * 2 ^ k / den = q
  generalize hr : num * 2 ^ k % den = r
  generalize hd : bit_length q - p = d
  generalize hf : q / 2 ^ d = f
  generalize hrest : q % 2 ^ d = rest
  generalize hup : (if rest < 2 ^ (d - 1) then false
      else if 2 ^ (d - 1) < rest then true else if r ≠ 0 then true
      else decide (f % 2 = 1)) = up
  have hden_pos : 0 < den := Nat.pos_of_ne_zero hden
  have hr_lt : r < den := hr ▸ Nat.mod_lt _ hden_pos
  have hqr : den * q + r = num * 2 ^ k := by
    rw [← hq, ← hr]
    exact Nat.div_add_mod _ _
  have hfr : 2 ^ d * f + rest = q := by
    rw [← hf, ← hrest]
    exact Nat.div_add_mod _ _
  have hrest_lt : rest < 2 ^ d := hrest ▸ Nat.mod_lt _ (Nat.pos_pow_of_pos _ (by omega))
  have hq_ge : 2 ^ (p + 1) ≤ q := by
    rw [← hq, Nat.le_div_iff_mul_le hden_pos]
    have h1 : den < 2 ^ bit_length den := lt_two_pow_bit_length den
    have h2 : 2 ^ k = 2 ^ (p + 1) * 2 ^ bit_length den := by
      rw [← hk, pow_add]
    rw [h2]
    have h3 : 2 ^ (p + 1) * den ≤ 2 ^ (p + 1) * 2 ^ bit_length den :=
      Nat.mul_le_mul_left _ h1.le
    have h4 : 2 ^ (p + 1) * 2 ^ bit_length den ≤ num * (2 ^ (p + 1) * 2 ^ bit_length den) :=
      Nat.le_mul_of_pos_left _ (Nat.pos_of_ne_zero hnum)
    omega
  have hq0 : q ≠ 0 := by
    have : 0 < 2 ^ (p + 1) := Nat.pos_pow_of_pos _ (by omega)
    omega
  have hq_hi : q < 2 ^ bit_length q := lt_two_pow_bit_length q
  have hq_lo : 2 ^ (bit_length q - 1) ≤ q := two_pow_bit_length_le hq0
  have hbl : p + 1 < bit_length q := by
    have : 2 ^ (p + 1) < 2 ^ bit_length q := Nat.lt_of_le_of_lt hq_ge hq_hi
    exact (Nat.pow_lt_pow_iff_right (by omega)).1 this
  have hd1 : 1 ≤ d := by omega
  have e1 : 2 ^ bit_length q = 2 ^ d * 2 ^ p := by
    rw [← pow_add]
    congr 1
    omega
  have e2 : 2 ^ (bit_length q - 1) = 2 ^ d * 2 ^ (p - 1) := by
    rw [← pow_add]
    congr 1
    omega
  have hdpos : 0 < 2 ^ d := Nat.pos_pow_of_pos _ (by omega)
  have hf_hi : f < 2 ^ p := by
    have : 2 ^ d * f < 2 ^ d * 2 ^ p := by omega
    exact Nat.lt_of_mul_lt_mul_left this
  have hf_lo : 2 ^ (p - 1) ≤ f := by
    have : 2 ^ d * 2 ^ (p - 1) < 2 ^ d * (f + 1) := by
      rw [Nat.mul_add, Nat.mul_one]
      omega
    have := Nat.lt_of_mul_lt_mul_left this
    omega
  have hfalse : up = false → rest < 2 ^ (d - 1) ∨ (rest = 2 ^ (d - 1) ∧ r = 0) := by
    intro h
    rw [← hup] at h
    by_cases c1 : rest < 2 ^ (d - 1)
    · exact Or.inl c1
    · by_cases c2 : 2 ^ (d - 1) < rest
      · simp [c1, c2] at h
      · by_cases c3 : r = 0
        · exact Or.inr ⟨by omega, c3⟩
        · simp [c1, c2, c3] at h
  have htrue : up = true → 2 ^ (d - 1) ≤ rest := by
    intro h
    rw [← hup] at h
    by_cases c1 : rest < 2 ^ (d - 1)
    · simp [c1] at h
    · omega
  have hu : (0 : ℚ) < 2 ^ k := by positivity
  have hdq : (0 : ℚ) < den := by exact_mod_cast hden_pos
  have hqrQ : (den : ℚ) * q + r = num * 2 ^ k := by exact_mod_cast hqr
  have hfrQ : (2 : ℚ) ^ d * f + rest = q := by exact_mod_cast hfr
  have hz : (2 : ℚ) ^ ((d : ℤ) - (k : ℤ)) = 2 ^ d / 2 ^ k := by
    rw [zpow_sub₀ (by norm_num : (2 : ℚ) ≠ 0), zpow_natCast, zpow_natCast]
  have hnd : (num : ℚ) / den = ((q : ℚ) + (r : ℚ) / den) / 2 ^ k := by
    have h1 : (q : ℚ) + (r : ℚ) / den = num * 2 ^ k / den := by
      rw [← hqrQ]
      field_simp
      ring
    rw [h1]
    field_simp
    ring
  have e : ((if up = true then f + 1 else f : ℕ) : ℚ) * (2 ^ d / 2 ^ k)
      - ((q : ℚ) + (r : ℚ) / den) / 2 ^ k
      = (((if up = true then f + 1 else f : ℕ) : ℚ) * 2 ^ d
        - ((2 : ℚ) ^ d * f + rest) - (r : ℚ) / den) / 2 ^ k := by
    rw [hfrQ]
    ring
  have e3 : (2 : ℚ) ^ d / 2 ^ k / 2 = (2 : ℚ) ^ d / 2 / 2 ^ k := by ring
  refine ⟨?_, ?_, ?_, ?_⟩
  · cases up <;> simp <;> omega
  · cases up <;> simp <;> omega
  · have key := round_abs_le (if up = true then f + 1 else f) f
      hden_pos hr_lt hd1 hrest_lt rfl hfalse htrue
    simp only [FloatVal.toRat, Bool.false_eq_true, if_false, one_mul]
    rw [hz, hnd, e, abs_div, abs_of_pos hu, e3, div_le_div_iff_of_pos_right hu]
    exact key
  · simp only [FloatVal.toRat, Bool.false_eq_true, if_false, one_mul]
    rw [hz, hnd, e, abs_div, abs_of_pos hu, e3, div_left_inj' hu.ne']
    intro htie
    obtain ⟨h1, h2⟩ := round_abs_tie (if up = true then f + 1 else f) f
      hden_pos hr_lt hd1 hrest_lt rfl hfalse htrue htie
    have hupv : up = decide (f % 2 = 1) := by
      rw [← hup]
      simp [h1, h2]
    rw [hupv]
    by_cases hodd : f % 2 = 1
    · simp [hodd]
      omega
    · simp [hodd]
      omega

theorem round_nearest_even_mant_eq_zero {p num den : Nat} (hp : 0 < p) (hden : den ≠ 0) :
    (round_nearest_even p num den).mant = 0 ↔ num = 0 := by
  constructor
  · intro h
    by_contra hnum
    have hq : num * 2 ^ (p + 1 + bit_length den) / den ≠ 0 := by
      have h1 : den < 2 ^ bit_length den := lt_two_pow_bit_length den
      have h2 : 2 ^ bit_length den ≤ 2 ^ (p + 1 + bit_length den) :=
        Nat.pow_le_pow_right (by omega) (by omega)
      have h3 : 2 ^ (p + 1 + bit_length den) ≤ num * 2 ^ (p + 1 + bit_length den) :=
        Nat.le_mul_of_pos_left _ (Nat.pos_of_ne_zero hnum)
      have h4 : 0 < num * 2 ^ (p + 1 + bit_length den) / den :=
        Nat.div_pos (by omega) (Nat.pos_of_ne_zero hden)
      omega
    have hlow := two_pow_bit_length_le hq
    have hd : 2 ^ (bit_length (num * 2 ^ (p + 1 + bit_length den) / den) - p)
        ≤ num * 2 ^ (p + 1 + bit_length den) / den :=
      Nat.le_trans (Nat.pow_le_pow_right (by omega) (by omega)) hlow
    have hf : 0 < num * 2 ^ (p + 1 + bit_length den) / den
        / 2 ^ (bit_length (num * 2 ^ (p + 1 + bit_length den) / den) - p) :=
      Nat.div_pos hd (Nat.pos_pow_of_pos _ (by omega))
    have key : ∀ c : Bool,
        (if c = true then
            num * 2 ^ (p + 1 + bit_length den) / den
              / 2 ^ (bit_length (num * 2 ^ (p + 1 + bit_length den) / den) - p) + 1
          else
            num * 2 ^ (p + 1 + bit_length den) / den
              / 2 ^ (bit_length (num * 2 ^ (p + 1 + bit_length den) / den) - p)) ≠ 0 := by
      intro c
      cases c
      · simp only [Bool.false_eq_true, if_false]
        omega
      · simp only [if_true]
        omega
    unfold round_nearest_even at h
    simp only [hnum, if_false] at h
    exact key _ h
  · intro h
    subst h
    simp [round_nearest_even]

theorem FloatVal.den_ne_zero (x : FloatVal) : x.den ≠ 0 := by
  unfold FloatVal.den
  split
  · omega
  · exact Nat.pos_iff_ne_zero.1 (Nat.pos_pow_of_pos _ (by omega))

theorem FloatVal.num_eq_zero_iff (x : FloatVal) : x.num = 0 ↔ x.mant = 0 := by
  unfold FloatVal.num
  split
  · have : 2 ^ x.exp.toNat ≠ 0 := Nat.pos_iff_ne_zero.1 (Nat.pos_pow_of_pos _ (by omega))
    simp [this]
  · exact Iff.rfl

theorem FloatVal.toRat_eq_zero_iff (x : FloatVal) : x.toRat = 0 ↔ x.mant = 0 := by
  unfold FloatVal.toRat
  have h2 : (2 : ℚ) ^ x.exp ≠ 0 := zpow_ne_zero _ (by norm_num)
  constructor
  · intro h
    rcases mul_eq_zero.1 h with h | h
    · rcases mul_eq_zero.1 h with h | h
      · split at h <;> norm_num at h
      · exact_mod_cast h
    · exact absurd h h2
  · intro h
    simp [h]

theorem round_nearest_even_neg (p num den : Nat) : (round_nearest_even p num den).neg = false := by
  unfold round_nearest_even
  split <;> rfl

theorem FloatVal.toRat_eq_ratio (x : FloatVal) (hneg : x.neg = false) :
    x.toRat = (x.num : ℚ) / (x.den : ℚ) := by
  unfold FloatVal.toRat FloatVal.num FloatVal.den
  rw [hneg]
  by_cases h : 0 ≤ x.exp
  · rw [if_pos h, if_pos h]
    have e : (2 : ℚ) ^ x.exp = 2 ^ x.exp.toNat := by
      rw [← zpow_natCast, Int.toNat_of_nonneg h]
    rw [e]
    push_cast
    simp
  · rw [if_neg h, if_neg h]
    have e : (2 : ℚ) ^ x.exp = (2 ^ (-x.exp).toNat)⁻¹ := by
      rw [← zpow_natCast, Int.toNat_of_nonneg (by omega), zpow_neg, inv_inv]
    rw [e]
    push_cast
    simp
    ring

theorem round_nearest_even_within (p num den : Nat) (hp : 0 < p) (hnum : num ≠ 0)
    (hden : den ≠ 0) :
    (num : ℚ) / den / 2 ≤ (round_nearest_even p num den).toRat ∧
    (round_nearest_even p num den).toRat ≤ 2 * ((num : ℚ) / den) := by
  obtain ⟨h1, -, h3, -⟩ := round_nearest_even_spec hp hnum hden
  have hneg := round_nearest_even_neg p num den
  generalize round_nearest_even p num den = x at h1 h3 hneg
  have hE : (0 : ℚ) < 2 ^ x.exp := zpow_pos (by norm_num) _
  have hm : (1 : ℚ) ≤ x.mant := by
    have : 1 ≤ x.mant := Nat.le_trans (Nat.one_le_two_pow) h1
    exact_mod_cast this
  have ht : x.toRat = (x.mant : ℚ) * 2 ^ x.exp := by
    unfold FloatVal.toRat
    rw [hneg]
    simp
  have hEt : (2 : ℚ) ^ x.exp ≤ x.toRat := by
    rw [ht]
    nlinarith
  rw [abs_le] at h3
  constructor <;> linarith [h3.1, h3.2]

theorem round_of_ratio_bounds (p num den : Nat) (lo hi : ℚ) (hp : 0 < p) (hden : den ≠ 0)
    (hlo : 0 < lo) (h1 : lo ≤ (num : ℚ) / den) (h2 : (num : ℚ) / den ≤ hi) :
    lo / 2 ≤ (round_nearest_even p num den).toRat ∧
    (round_nearest_even p num den).toRat ≤ 2 * hi := by
  have hnum : num ≠ 0 := by
    rintro rfl
    simp at h1
    linarith
  obtain ⟨w1, w2⟩ := round_nearest_even_within p num den hp hnum hden
  constructor <;> linarith

/-- The values `get_cpu_usage` computes on the way from non-zero counters to the result
stay far inside the range in which `double` and `float` values are normal (from
`2 ^ (-126)` to `2 ^ 127` for `float`), so no step overflows or becomes subnormal. -/
theorem cpu_expression_range (busy total : Nat) (hb : busy ≠ 0) (ht : total ≠ 0)
    (hb64 : busy < ULONG_SIZE) (ht64 : total < ULONG_SIZE) :
    (1 / 2 ≤ (ulong_to_double busy).toRat ∧ (ulong_to_double busy).toRat ≤ 2 ^ 65) ∧
    (25 ≤ (double_mul (ulong_to_double busy) DOUBLE_100).toRat ∧
      (double_mul (ulong_to_double busy) DOUBLE_100).toRat ≤ 2 ^ 73) ∧
    (1 / 2 ≤ (ulong_to_double total).toRat ∧ (ulong_to_double total).toRat ≤ 2 ^ 65) ∧
    (1 / 2 ^ 62 ≤ (double_div (double_mul (ulong_to_double busy) DOUBLE_100)
        (ulong_to_double total)).toRat ∧
      (double_div (double_mul (ulong_to_double busy) DOUBLE_100)
        (ulong_to_double total)).toRat ≤ 2 ^ 75) ∧
    (1 / 2 ^ 63 ≤ (double_to_float (double_div (double_mul (ulong_to_double busy) DOUBLE_100)
        (ulong_to_double total))).toRat ∧
      (double_to_float (double_div (double_mul (ulong_to_double busy) DOUBLE_100)
        (ulong_to_double total))).toRat ≤ 2 ^ 76) := by
  have hbq : (1 : ℚ) ≤ busy := by exact_mod_cast Nat.pos_of_ne_zero hb
  have htq : (1 : ℚ) ≤ total := by exact_mod_cast Nat.pos_of_ne_zero ht
  have hbq2 : (busy : ℚ) ≤ 2 ^ 64 := by
    have : busy ≤ 2 ^ 64 := by
      unfold ULONG_SIZE at hb64
      omega
    exact_mod_cast this
  have htq2 : (total : ℚ) ≤ 2 ^ 64 := by
    have : total ≤ 2 ^ 64 := by
      unfold ULONG_SIZE at ht64
      omega
    exact_mod_cast this
  have c1 : 1 / 2 ≤ (ulong_to_double busy).toRat ∧ (ulong_to_double busy).toRat ≤ 2 ^ 65 := by
    have := round_of_ratio_bounds 53 busy 1 1 (2 ^ 64) (by omega) (by omega)
      (by norm_num) (by simpa using hbq) (by simpa using hbq2)
    constructor
    · exact this.1
    · refine le_trans this.2 ?_
      norm_num
  have c3 : 1 / 2 ≤ (ulong_to_double total).toRat ∧ (ulong_to_double total).toRat ≤ 2 ^ 65 := by
    have := round_of_ratio_bounds 53 total 1 1 (2 ^ 64) (by omega) (by omega)
      (by norm_num) (by simpa using htq) (by simpa using htq2)
    constructor
    · exact this.1
    · refine le_trans this.2 ?_
      norm_num
  have r1 := FloatVal.toRat_eq_ratio (ulong_to_double busy) (round_nearest_even_neg _ _ _)
  have r3 := FloatVal.toRat_eq_ratio (ulong_to_double total) (round_nearest_even_neg _ _ _)
  have h100 : DOUBLE_100.num = 100 ∧ DOUBLE_100.den = 1 := by decide
  have v2 : ((((ulong_to_double busy).num * DOUBLE_100.num : ℕ) : ℚ)
      / (((ulong_to_double busy).den * DOUBLE_100.den : ℕ) : ℚ))
      = (ulong_to_double busy).toRat * 100 := by
    rw [h100.1, h100.2, r1]
    push_cast
    ring
  have c2 : 25 ≤ (double_mul (ulong_to_double busy) DOUBLE_100).toRat ∧
      (double_mul (ulong_to_double busy) DOUBLE_100).toRat ≤ 2 ^ 73 := by
    have := round_of_ratio_bounds 53
      ((ulong_to_double busy).num * DOUBLE_100.num)
      ((ulong_to_double busy).den * DOUBLE_100.den) 50 (2 ^ 65 * 100) (by omega)
      (Nat.mul_ne_zero (FloatVal.den_ne_zero _) (FloatVal.den_ne_zero _))
      (by norm_num)
      (by rw [v2]; linarith [c1.1]) (by rw [v2]; linarith [c1.2])
    constructor
    · refine le_trans ?_ this.1
      norm_num
    · refine le_trans this.2 ?_
      norm_num
  have r2 := FloatVal.toRat_eq_ratio (double_mul (ulong_to_double busy) DOUBLE_100)
    (round_nearest_even_neg _ _ _)
  have hden3 : (ulong_to_double total).num ≠ 0 := by
    intro h
    have hz : (ulong_to_double total).toRat = 0 := by
      rw [r3, h]
      simp
    linarith [c3.1]
  have v4 : ((((double_mul (ulong_to_double busy) DOUBLE_100).num
        * (ulong_to_double total).den : ℕ) : ℚ)
      / (((double_mul (ulong_to_double busy) DOUBLE_100).den
        * (ulong_to_double total).num : ℕ) : ℚ))
      = (double_mul (ulong_to_double busy) DOUBLE_100).toRat
        / (ulong_to_double total).toRat := by
    rw [r2, r3]
    push_cast
    have a1 : (((double_mul (ulong_to_double busy) DOUBLE_100).den : ℕ) : ℚ) ≠ 0 := by
      exact_mod_cast FloatVal.den_ne_zero _
    have a2 : (((ulong_to_double total).den : ℕ) : ℚ) ≠ 0 := by
      exact_mod_cast FloatVal.den_ne_zero _
    have a3 : (((ulong_to_double total).num : ℕ) : ℚ) ≠ 0 := by
      exact_mod_cast hden3
    field_simp
  have hpos3 : (0 : ℚ) < (ulong_to_double total).toRat := by linarith [c3.1]
  have c4 : 1 / 2 ^ 62 ≤ (double_div (double_mul (ulong_to_double busy) DOUBLE_100)
        (ulong_to_double total)).toRat ∧
      (double_div (double_mul (ulong_to_double busy) DOUBLE_100)
        (ulong_to_double total)).toRat ≤ 2 ^ 75 := by
    have := round_of_ratio_bounds 53
      ((double_mul (ulong_to_double busy) DOUBLE_100).num * (ulong_to_double total).den)
      ((double_mul (ulong_to_double busy) DOUBLE_100).den * (ulong_to_double total).num)
      (25 / 2 ^ 65) (2 ^ 74)
      (by omega) (Nat.mul_ne_zero (FloatVal.den_ne_zero _) hden3)
      (by norm_num)
      (by
        rw [v4, div_le_div_iff₀ (by norm_num) hpos3]
        nlinarith [c2.1, c3.2])
      (by
        rw [v4, div_le_iff₀ hpos3]
        nlinarith [c2.2, c3.1])
    constructor
    · refine le_trans ?_ this.1
      norm_num
    · refine le_trans this.2 ?_
      norm_num
  have r4 := FloatVal.toRat_eq_ratio (double_div (double_mul (ulong_to_double busy) DOUBLE_100)
    (ulong_to_double total)) (round_nearest_even_neg _ _ _)
  have c5 : 1 / 2 ^ 63 ≤ (double_to_float (double_div (double_mul (ulong_to_double busy)
        DOUBLE_100) (ulong_to_double total))).toRat ∧
      (double_to_float (double_div (double_mul (ulong_to_double busy) DOUBLE_100)
        (ulong_to_double total))).toRat ≤ 2 ^ 76 := by
    have := round_of_ratio_bounds 24
      (double_div (double_mul (ulong_to_double busy) DOUBLE_100)
        (ulong_to_double total)).num
      (double_div (double_mul (ulong_to_double busy) DOUBLE_100)
        (ulong_to_double total)).den
      (1 / 2 ^ 62) (2 ^ 75)
      (by omega) (FloatVal.den_ne_zero _)
      (by norm_num)
      (by rw [← r4]; exact c4.1) (by rw [← r4]; exact c4.2)
    constructor
    · refine le_trans ?_ this.1
      norm_num
    · refine le_trans this.2 ?_
      norm_num
  exact ⟨c1, c2, c3, c4, c5⟩

/-- The value of the expression `busy * 100.0 / total` stored in a `float` is zero
exactly when `busy` is zero, for a divisor that is not zero. -/
theorem cpu_expression_eq_zero_iff (busy total : Nat) (ht : total ≠ 0) :
    (double_to_float (double_div (double_mul (ulong_to_double busy) DOUBLE_100)
      (ulong_to_double total))).toRat = 0 ↔ busy = 0 := by
  have h1 : (ulong_to_double busy).mant = 0 ↔ busy = 0 :=
    round_nearest_even_mant_eq_zero (by omega) (by omega)
  have ht2 : (ulong_to_double total).num ≠ 0 := by
    rw [Ne, FloatVal.num_eq_zero_iff]
    exact fun h => ht ((round_nearest_even_mant_eq_zero (by omega) (by omega)).1 h)
  have h100 : DOUBLE_100.num = 100 ∧ DOUBLE_100.den = 1 := by decide
  have h2 : (double_mul (ulong_to_double busy) DOUBLE_100).mant = 0 ↔ busy = 0 := by
    unfold double_mul
    rw [round_nearest_even_mant_eq_zero (by omega)
      (Nat.mul_ne_zero (FloatVal.den_ne_zero _) (FloatVal.den_ne_zero _)), h100.1,
      Nat.mul_eq_zero, FloatVal.num_eq_zero_iff, h1]
    omega
  have h3 : (double_div (double_mul (ulong_to_double busy) DOUBLE_100)
      (ulong_to_double total)).mant = 0 ↔ busy = 0 := by
    unfold double_div
    rw [round_nearest_even_mant_eq_zero (by omega)
      (Nat.mul_ne_zero (FloatVal.den_ne_zero _) ht2), Nat.mul_eq_zero,
      FloatVal.num_eq_zero_iff, h2]
    have := FloatVal.den_ne_zero (ulong_to_double total)
    tauto
  rw [FloatVal.toRat_eq_zero_iff]
  unfold double_to_float
  rw [round_nearest_even_mant_eq_zero (by omega) (FloatVal.den_ne_zero _),
    FloatVal.num_eq_zero_iff, h3]

set_option maxRecDepth 20000 in
/-- C10 as stated fails: on the first call, with 100 busy and 100 idle ticks since
boot, `get_cpu_usage` returns the float 50, the share of busy ticks since boot, not 0;
with one busy tick out of three it returns the float 8738133 / 262144. -/
theorem first_sample_not_sentinel :
    (SystemMonitorC.get_cpu_usage (some stat_half_busy) CpuSample.init).1
      = { neg := false, mant := 13107200, exp := -18 } ∧
    (SystemMonitorC.get_cpu_usage (some stat_half_busy) CpuSample.init).1.toRat = 50 ∧
    (SystemMonitorC.get_cpu_usage (some stat_half_busy) CpuSample.init).1.toRat ≠ 0 ∧
    (SystemMonitorC.get_cpu_usage (some stat_third_busy) CpuSample.init).1
      = { neg := false, mant := 8738133, exp := -18 } := by
  have h : (SystemMonitorC.get_cpu_usage (some stat_half_busy) CpuSample.init).1
      = { neg := false, mant := 13107200, exp := -18 } := by decide
  have hv : (SystemMonitorC.get_cpu_usage (some stat_half_busy) CpuSample.init).1.toRat
      = 50 := by
    rewrite [h]
    norm_num [FloatVal.toRat]
  refine ⟨h, hv, ?_, by decide⟩
  rewrite [hv]
  norm_num

/-- C10, amended: on the first call (both statics 0) with readable counters,
`get_cpu_usage` returns 0.0 when the total read is 0 and otherwise the float value of
`(total - idle) * 100.0 / total`, computed in `double` from the counters since boot
(64-bit unsigned arithmetic); so the result is the value 0 exactly when the total read
is 0 or equals the idle counter. Without overflow of the sum the dividend is the number
of busy ticks since boot. -/
theorem first_sample_from_boot_counters (r : ProcStat) :
    (SystemMonitorC.get_cpu_usage (some r) CpuSample.init).1
      = double_to_float
        (if (r.user + r.nice + r.system + r.idle + r.iowait + r.irq + r.softirq) % ULONG_SIZE
            = 0 then DOUBLE_0
        else double_div
          (double_mul
            (ulong_to_double
              (usub ((r.user + r.nice + r.system + r.idle + r.iowait + r.irq + r.softirq)
                % ULONG_SIZE) (r.idle % ULONG_SIZE)))
            DOUBLE_100)
          (ulong_to_double
            ((r.user + r.nice + r.system + r.idle + r.iowait + r.irq + r.softirq)
              % ULONG_SIZE))) ∧
    ((SystemMonitorC.get_cpu_usage (some r) CpuSample.init).1.toRat = 0 ↔
      (r.user + r.nice + r.system + r.idle + r.iowait + r.irq + r.softirq) % ULONG_SIZE = 0 ∨
      (r.user + r.nice + r.system + r.idle + r.iowait + r.irq + r.softirq) % ULONG_SIZE
        = r.idle % ULONG_SIZE) ∧
    (r.user + r.nice + r.system + r.idle + r.iowait + r.irq + r.softirq < ULONG_SIZE →
      0 < r.user + r.nice + r.system + r.idle + r.iowait + r.irq + r.softirq →
      (SystemMonitorC.get_cpu_usage (some r) CpuSample.init).1
        = double_to_float
          (double_div
            (double_mul
              (ulong_to_double (r.user + r.nice + r.system + r.iowait + r.irq + r.softirq))
              DOUBLE_100)
            (ulong_to_double
              (r.user + r.nice + r.system + r.idle + r.iowait + r.irq + r.softirq)))) := by
  have hmod : 0 < ULONG_SIZE := by
    unfold ULONG_SIZE
    omega
  have ht : (r.user + r.nice + r.system + r.idle + r.iowait + r.irq + r.softirq) % ULONG_SIZE
      < ULONG_SIZE := Nat.mod_lt _ hmod
  have hi : r.idle % ULONG_SIZE < ULONG_SIZE := Nat.mod_lt _ hmod
  generalize htot :
    (r.user + r.nice + r.system + r.idle + r.iowait + r.irq + r.softirq) % ULONG_SIZE = total
    at ht
  have hval : (SystemMonitorC.get_cpu_usage (some r) CpuSample.init).1
      = double_to_float
        (if total = 0 then DOUBLE_0
        else double_div
          (double_mul (ulong_to_double (usub total (r.idle % ULONG_SIZE))) DOUBLE_100)
          (ulong_to_double total)) := by
    simp only [SystemMonitorC.get_cpu_usage, CpuSample.init, usub_zero_right, htot,
      Nat.mod_mod, Nat.mod_eq_of_lt ht]
  refine ⟨hval, ?_, ?_⟩
  · rewrite [hval]
    by_cases h0 : total = 0
    · rewrite [if_pos h0]
      have hz : (double_to_float DOUBLE_0).toRat = 0 := by
        rw [FloatVal.toRat_eq_zero_iff]
        decide
      exact ⟨fun _ => Or.inl h0, fun _ => hz⟩
    · rewrite [if_neg h0, cpu_expression_eq_zero_iff _ _ h0, usub_eq_zero_iff ht hi]
      constructor
      · exact fun h => Or.inr h
      · rintro (h | h)
        · exact absurd h h0
        · exact h
  · intro hsum hpos
    have e1 : total = r.user + r.nice + r.system + r.idle + r.iowait + r.irq + r.softirq := by
      rw [← htot, Nat.mod_eq_of_lt hsum]
    have e2 : r.idle % ULONG_SIZE = r.idle := Nat.mod_eq_of_lt (by omega)
    have e3 : r.user + r.nice + r.system + r.idle + r.iowait + r.irq + r.softirq - r.idle
        = r.user + r.nice + r.system + r.iowait + r.irq + r.softirq := by omega
    rewrite [hval, if_neg (by omega), e2, usub_of_le ht (by omega), e1, e3]
    exact rfl

set_option maxRecDepth 20000 in
/-- C10, amended, at concrete counters: 100 busy and 100 idle ticks give the float 50,
and one busy tick out of three gives the float 8738133 / 262144, the `double` nearest
to 100 / 3 rounded once more to `float`. -/
theorem first_sample_from_boot_counters_witness :
    stat_half_busy.user + stat_half_busy.nice + stat_half_busy.system + stat_half_busy.idle
      + stat_half_busy.iowait + stat_half_busy.irq + stat_half_busy.softirq < ULONG_SIZE ∧
    (SystemMonitorC.get_cpu_usage (some stat_half_busy) CpuSample.init).1
      = { neg := false, mant := 13107200, exp := -18 } ∧
    (SystemMonitorC.get_cpu_usage (some stat_third_busy) CpuSample.init).1
      = { neg := false, mant := 8738133, exp := -18 } :=
  ⟨by norm_num [stat_half_busy, ULONG_SIZE],
    ((first_sample_from_boot_counters stat_half_busy).2.2
      (by norm_num [stat_half_busy, ULONG_SIZE]) (by decide)).trans (by decide),
    ((first_sample_from_boot_counters stat_third_busy).2.2
      (by norm_num [stat_third_busy, ULONG_SIZE]) (by decide)).trans (by decide)⟩

/-! ## Escaping of the captured output -/

theorem escape_byte_spec (c : Char) :
    escape_byte c = if c = DQUOTE then SQUOTE else if c = LF then SPACE else c := by
  unfold escape_byte
  by_cases h : c = DQUOTE
  · subst h
    decide
  · simp [h]

theorem escape_byte_ne_dquote (c : Char) : escape_byte c ≠ DQUOTE := by
  rw [escape_byte_spec]
  split
  · decide
  · split
    · decide
    · assumption

theorem escape_byte_ne_lf (c : Char) : escape_byte c ≠ LF := by
  rw [escape_byte_spec]
  split
  · decide
  · split
    · decide
    · assumption

theorem escape_byte_eq_nul (c : Char) : escape_byte c = NUL ↔ c = NUL := by
  rw [escape_byte_spec]
  split
  · rename_i h
    subst h
    decide
  · split
    · rename_i h
      subst h
      decide
    · exact Iff.rfl

theorem cstr_map_escape {l : List Char} (h : NUL ∉ l) :
    cstr (l.map escape_byte) = l.map escape_byte := by
  rw [cstr_map_of_preserving escape_byte escape_byte_eq_nul, cstr_eq_self h]

theorem captured_of_nonempty (env : Env) {out : List Char} (h : fread 92159 out ≠ []) :
    DeviceAgent.captured_or_fallback env out = fread 92159 out := by
  unfold DeviceAgent.captured_or_fallback
  have : ¬ (fread 92159 out).length = 0 := by
    rw [List.length_eq_zero]
    exact h
  simp only [this, if_false]

/-- C3 as stated fails in the DeviceAgent: `exit 7` prints nothing, the captured output
is empty, and the stdout field of the response is not empty but the fallback text. -/
theorem empty_output_replaced_by_fallback :
    env0.popen (parse_script (cstr slot_exit7.pending_command)) = some ([], 7 * 256) ∧
    (fread 92159 ([] : List Char)).map escape_byte = [] ∧
    DeviceAgent.build_response env0 slot_exit7
      = "\x7b\"clientToken\":\"tok-2\",\"stdout\":\"Command returned no output. Examples file not found.\",\"stderr\":\"\",\"exitCode\":7\x7d".toList ∧
    DeviceAgent.build_response env0 slot_exit7
      ≠ "\x7b\"clientToken\":\"tok-2\",\"stdout\":\"\",\"stderr\":\"\",\"exitCode\":7\x7d".toList := by
  decide

/-- C3, amended: when the shell starts and the captured output (the first 1023 bytes
in SystemMonitorC, the first 92159 in DeviceAgent) holds no NUL, the stdout field of
the response is the captured output with every double-quote replaced by a single-quote
and every line-feed by a space, all other bytes and the length unchanged, hence free of
double-quotes and line-feeds; in DeviceAgent this holds for a captured output that is
not empty, an empty one being replaced by the fallback text escaped the same way. -/
theorem stdout_escaped (env : Env) (s : State) (out : List Char) (status : Int)
    (hscript : parse_script (cstr s.pending_command) ≠ [])
    (hp : env.popen (parse_script (cstr s.pending_command)) = some (out, status)) :
    (NUL ∉ fread 1023 out →
      SystemMonitorC.build_response env s
        = "\x7b\"clientToken\":\"".toList ++ parse_client_token (cstr s.pending_command)
          ++ "\",\"stdout\":\"".toList ++ (fread 1023 out).map escape_byte
          ++ "\",\"stderr\":\"\",\"exitCode\":".toList
          ++ Nat.toDigits 10 (WEXITSTATUS status).toNat ++ "\x7d".toList) ∧
    (NUL ∉ fread 92159 out → fread 92159 out ≠ [] →
      DeviceAgent.build_response env s
        = "\x7b\"clientToken\":\"".toList ++ parse_client_token (cstr s.pending_command)
          ++ "\",\"stdout\":\"".toList ++ (fread 92159 out).map escape_byte
          ++ "\",\"stderr\":\"\",\"exitCode\":".toList
          ++ Nat.toDigits 10 (WEXITSTATUS status).toNat ++ "\x7d".toList) ∧
    (fread 92159 out = [] →
      DeviceAgent.build_response env s
        = "\x7b\"clientToken\":\"".toList ++ parse_client_token (cstr s.pending_command)
          ++ "\",\"stdout\":\"".toList
          ++ cstr ((match env.examples_file with
              | some file => fread 92159 file
              | none => DeviceAgent.NO_OUTPUT_TEXT).map escape_byte)
          ++ "\",\"stderr\":\"\",\"exitCode\":".toList
          ++ Nat.toDigits 10 (WEXITSTATUS status).toNat ++ "\x7d".toList) ∧
    (∀ captured : List Char,
      (captured.map escape_byte).length = captured.length ∧
      DQUOTE ∉ captured.map escape_byte ∧ LF ∉ captured.map escape_byte) ∧
    (∀ c : Char,
      escape_byte c = if c = DQUOTE then SQUOTE else if c = LF then SPACE else c) := by
  have h6 := exit_code_shape env s out status hscript hp
  refine ⟨fun hnul => ?_, fun hnul hne => ?_, fun hempty => ?_, fun captured => ?_,
    escape_byte_spec⟩
  · rw [h6.1, cstr_map_escape hnul]
  · rw [h6.2, captured_of_nonempty env hne, cstr_map_escape hnul]
  · rw [h6.2]
    unfold DeviceAgent.captured_or_fallback
    simp only [hempty, List.length_nil, if_true]
  · refine ⟨List.length_map _ _, ?_, ?_⟩
    · intro h
      obtain ⟨c, -, hc⟩ := List.mem_map.1 h
      exact escape_byte_ne_dquote c hc
    · intro h
      obtain ⟨c, -, hc⟩ := List.mem_map.1 h
      exact escape_byte_ne_lf c hc

/-- C3, amended, at concrete outputs: the captured text `He said "hi"`, line-feed,
`Bye` is embedded as `He said 'hi' Bye` in both components, and the empty output of
`exit 7` is replaced by the fallback text in the DeviceAgent. -/
theorem stdout_escaped_witness :
    parse_script (cstr slot_note.pending_command) ≠ [] ∧
    env_note.popen (parse_script (cstr slot_note.pending_command))
      = some ("He said \"hi\"\nBye".toList, 0) ∧
    NUL ∉ fread 1023 "He said \"hi\"\nBye".toList ∧
    fread 92159 "He said \"hi\"\nBye".toList ≠ [] ∧
    SystemMonitorC.build_response env_note slot_note
      = "\x7b\"clientToken\":\"tok-4\",\"stdout\":\"He said 'hi' Bye\",\"stderr\":\"\",\"exitCode\":0\x7d".toList ∧
    DeviceAgent.build_response env_note slot_note
      = "\x7b\"clientToken\":\"tok-4\",\"stdout\":\"He said 'hi' Bye\",\"stderr\":\"\",\"exitCode\":0\x7d".toList ∧
    fread 92159 ([] : List Char) = [] ∧
    DeviceAgent.build_response env0 slot_exit7
      = "\x7b\"clientToken\":\"tok-2\",\"stdout\":\"Command returned no output. Examples file not found.\",\"stderr\":\"\",\"exitCode\":7\x7d".toList :=
  have h := stdout_escaped env_note slot_note "He said \"hi\"\nBye".toList 0
    (by decide) (by decide)
  have h7 := stdout_escaped env0 slot_exit7 [] (7 * 256) (by decide) (by decide)
  ⟨by decide, by decide, by decide, by decide, (h.1 (by decide)).trans (by decide),
    (h.2.1 (by decide) (by decide)).trans (by decide), rfl,
    (h7.2.2.1 rfl).trans (by decide)⟩

/-! ## The response as a JSON text -/

/-- C4 fails on the code: the script `printf 'a\\'` prints `a` and a backslash, the
backslash is embedded as it is and escapes the closing double-quote of the stdout
field, so the response is not a record of the fixed shape; the response to
`echo hello` is one. -/
theorem backslash_breaks_record :
    SystemMonitorC.build_response env_note slot_backslash
      = "\x7b\"clientToken\":\"tok-5\",\"stdout\":\"a\\\",\"stderr\":\"\",\"exitCode\":0\x7d".toList ∧
    DeviceAgent.build_response env_note slot_backslash
      = "\x7b\"clientToken\":\"tok-5\",\"stdout\":\"a\\\",\"stderr\":\"\",\"exitCode\":0\x7d".toList ∧
    is_response_record (SystemMonitorC.build_response env_note slot_backslash) = false ∧
    is_response_record (DeviceAgent.build_response env_note slot_backslash) = false ∧
    is_response_record (SystemMonitorC.build_response env0 slot_hello) = true := by
  decide

/-! ## No script -/

theorem strchr_some_split {l : List Char} {c : Char} {p : List Char}
    (h : strchr l c = some p) :
    ∃ pre post, l = pre ++ c :: post ∧ p = c :: post ∧ c ∉ pre := by
  induction l with
  | nil => simp [strchr] at h
  | cons a l ih =>
    by_cases ha : a = c
    · subst ha
      simp [strchr] at h
      exact ⟨[], l, rfl, h.symm, by simp⟩
    · simp [strchr, ha] at h
      obtain ⟨pre, post, h1, h2, h3⟩ := ih h
      refine ⟨a :: pre, post, by simp [h1], h2, ?_⟩
      intro m
      rcases List.mem_cons.1 m with e | m
      · exact ha e.symm
      · exact h3 m

theorem dquote_not_mem_parse_field (cmd anchor : List Char) (skip cap : Nat) :
    DQUOTE ∉ parse_field cmd anchor skip cap := by
  unfold parse_field
  cases strstr cmd anchor with
  | none => simp
  | some p0 =>
    simp only []
    cases strchr (p0.drop skip) DQUOTE with
    | none => simp
    | some p1 =>
      simp only []
      cases h2 : strchr (p1.drop 1) DQUOTE with
      | none => simp
      | some stop =>
        simp only []
        split
        · intro hmem
          obtain ⟨pre, post, e1, e2, e3⟩ := strchr_some_split h2
          rw [e1, e2] at hmem
          have hlen : (pre ++ DQUOTE :: post).length - (DQUOTE :: post).length
              = pre.length := by simp
          rw [hlen] at hmem
          unfold strncpy cstr at hmem
          have hpre : List.take pre.length
              (List.takeWhile (fun c => c != NUL) (pre ++ DQUOTE :: post))
              <+: List.take pre.length (pre ++ DQUOTE :: post) :=
            (List.takeWhile_prefix _).take _
          rw [List.take_left] at hpre
          exact e3 (hpre.subset hmem)
        · simp

theorem json_expect_append (lit rest : List Char) :
    json_expect lit (lit ++ rest) = some rest := by
  unfold json_expect
  have h : lit.isPrefixOf (lit ++ rest) = true := by
    rw [ List.isPrefixOf_iff_prefix]
    exact List.prefix_append lit rest
  rw [if_pos h, List.drop_left]

theorem json_string_tail_plain {str : List Char} (rest : List Char)
    (h : ∀ c ∈ str, json_plain c = true) :
    json_string_tail (str ++ DQUOTE :: rest) = some rest := by
  induction str with
  | nil =>
    show json_string_tail (DQUOTE :: rest) = some rest
    unfold json_string_tail
    simp
  | cons a l ih =>
    have ha := h a (by simp)
    have hl : ∀ c ∈ l, json_plain c = true := fun c hc => h c (List.mem_cons_of_mem _ hc)
    unfold json_plain at ha
    simp only [Bool.and_eq_true, bne_iff_ne, ne_eq, decide_eq_true_eq] at ha
    obtain ⟨⟨h1, h2⟩, h3⟩ := ha
    have h4 : ¬ a.toNat < 32 := by omega
    show json_string_tail (a :: (l ++ DQUOTE :: rest)) = some rest
    unfold json_string_tail
    simp only [h1, h2, h4, if_false]
    exact ih hl

theorem json_string_lit_plain {str : List Char} (rest : List Char)
    (h : ∀ c ∈ str, json_plain c = true) :
    json_string_lit (str ++ DQUOTE :: rest) = some (str, rest) := by
  unfold json_string_lit
  rw [json_string_tail_plain rest h]
  have hlen : (str ++ DQUOTE :: rest).length - rest.length - 1 = str.length := by
    simp only [List.length_append, List.length_cons]
    omega
  simp only [Option.map_some', hlen, List.take_left]

theorem is_response_record_of_parts {tok out tail : List Char}
    (htok : ∀ c ∈ tok, json_plain c = true) (hout : ∀ c ∈ out, json_plain c = true)
    (htail : (((json_expect ",\"stderr\":\"".toList tail).bind json_string_tail).bind
      (json_expect ",\"exitCode\":".toList)).bind json_int_tail = some "\x7d".toList) :
    is_response_record ("\x7b\"clientToken\":\"".toList ++ (tok ++ DQUOTE ::
      (",\"stdout\":\"".toList ++ (out ++ DQUOTE :: tail)))) = true := by
  unfold is_response_record
  rw [json_expect_append, Option.some_bind, json_string_tail_plain _ htok, Option.some_bind,
    json_expect_append, Option.some_bind, json_string_tail_plain _ hout, Option.some_bind,
    htail]
  simp

theorem response_fields_of_parts {tok out tail : List Char}
    (htok : ∀ c ∈ tok, json_plain c = true) (hout : ∀ c ∈ out, json_plain c = true) :
    response_fields ("\x7b\"clientToken\":\"".toList ++ (tok ++ DQUOTE ::
      (",\"stdout\":\"".toList ++ (out ++ DQUOTE :: tail))))
      = (response_tail_fields tail).map fun t => (tok, out, t.1, t.2) := by
  unfold response_fields
  rw [json_expect_append, Option.some_bind, json_string_lit_plain _ htok, Option.some_bind]
  simp only []
  rw [json_expect_append, Option.some_bind, json_string_lit_plain _ hout, Option.some_bind]

theorem escape_examples_byte_spec (c : Char) :
    escape_examples_byte c = if c = LF then SPACE else if c = DQUOTE then SQUOTE else c := by
  unfold escape_examples_byte
  by_cases h : c = LF
  · subst h
    decide
  · simp [h]

theorem escape_examples_byte_eq_nul (c : Char) : escape_examples_byte c = NUL ↔ c = NUL := by
  rw [escape_examples_byte_spec]
  split
  · rename_i h
    subst h
    decide
  · split
    · rename_i h
      subst h
      decide
    · exact Iff.rfl

theorem cstr_examples_text (env : Env) :
    cstr (DeviceAgent.examples_text env)
      = (match env.examples_file with
        | some file => (cstr (fread 4095 file)).map
            (fun c => if c = LF then SPACE else if c = DQUOTE then SQUOTE else c)
        | none => DeviceAgent.EXAMPLES_DEFAULT) := by
  unfold DeviceAgent.examples_text
  cases env.examples_file with
  | none => exact cstr_eq_self (by decide)
  | some file =>
    simp only []
    rw [cstr_map_of_preserving escape_examples_byte escape_examples_byte_eq_nul]
    exact List.map_congr_left (fun c _ => escape_examples_byte_spec c)

theorem json_plain_examples_text (env : Env)
    (hfile : ∀ file, env.examples_file = some file →
      ∀ c ∈ cstr (fread 4095 file), c ≠ BACKSLASH ∧ (32 ≤ c.toNat ∨ c = LF)) :
    ∀ c ∈ cstr (DeviceAgent.examples_text env), json_plain c = true := by
  rw [cstr_examples_text]
  cases hf : env.examples_file with
  | none => decide
  | some file =>
    intro c hc
    obtain ⟨b, hb, rfl⟩ := List.mem_map.1 hc
    obtain ⟨h1, h2⟩ := hfile file hf b hb
    by_cases e1 : b = LF
    · subst e1
      decide
    · by_cases e2 : b = DQUOTE
      · subst e2
        decide
      · have h3 : 32 ≤ b.toNat := by
          rcases h2 with h2 | h2
          · exact h2
          · exact absurd h2 e1
        simp [e1, e2, json_plain, h1, h3]

theorem json_plain_client_token {cmd : List Char}
    (h : ∀ c ∈ parse_client_token cmd, c ≠ BACKSLASH ∧ 32 ≤ c.toNat) :
    ∀ c ∈ parse_client_token cmd, json_plain c = true := by
  intro c hc
  obtain ⟨h1, h2⟩ := h c hc
  have h3 : c ≠ DQUOTE := fun e => dquote_not_mem_parse_field _ _ _ _ (e ▸ hc)
  simp [json_plain, h1, h2, h3]

/-- C5 as stated fails: the queued message `{"clientToken":"a\","script":""}` has an
empty script field, and the response embeds the client token `a\` as it is, so the
backslash escapes the closing double-quote of the field and the response is not a
well-formed record, in either component. -/
theorem backslash_token_breaks_no_script_record :
    slot_backslash_token.has_pending_command = true ∧
    parse_script (cstr slot_backslash_token.pending_command) = [] ∧
    SystemMonitorC.build_response env0 slot_backslash_token
      = "\x7b\"clientToken\":\"a\\\",\"stdout\":\"\",\"stderr\":\"No script provided\",\"exitCode\":1\x7d".toList ∧
    is_response_record (SystemMonitorC.build_response env0 slot_backslash_token) = false ∧
    is_response_record (DeviceAgent.build_response env0 slot_backslash_token) = false ∧
    response_fields (SystemMonitorC.build_response env0 slot_backslash_token) = none ∧
    response_fields (DeviceAgent.build_response env0 slot_backslash_token) = none := by
  decide

/-- C5, amended: when the queued message has no script anchor, or an empty script value
`"script":""`, or in any other way yields an empty extracted script,
`process_pending_command` starts no shell and the response is the fixed template
around the extracted client token, with `No script provided` and `exitCode` 1, the
stdout text being empty in SystemMonitorC and, in DeviceAgent, the default text or up
to 4095 bytes of the examples file with line-feeds turned into spaces and double-quotes
into single-quotes. When the extracted client token (and for DeviceAgent the bytes
read from the examples file, line-feeds apart) holds no backslash and no control byte,
the response is a well-formed record whose fields are the client token, that stdout
text, the stderr text `No script provided` and the exit code 1. -/
theorem no_script_response (env : Env) (s : State)
    (hocc : s.has_pending_command = true)
    (hscript : (∀ pre post, cstr s.pending_command ≠ pre ++ SCRIPT_ANCHOR ++ post) ∨
      (∃ pre gap post, FieldAt (cstr s.pending_command) SCRIPT_ANCHOR pre gap [] post) ∨
      parse_script (cstr s.pending_command) = []) :
    parse_script (cstr s.pending_command) = [] ∧
    shell_commands (SystemMonitorC.process_pending_command env s).2 = [] ∧
    shell_commands (DeviceAgent.process_pending_command env s).2 = [] ∧
    SystemMonitorC.build_response env s
      = "\x7b\"clientToken\":\"".toList ++ parse_client_token (cstr s.pending_command)
        ++ "\",\"stdout\":\"\",\"stderr\":\"No script provided\",\"exitCode\":1\x7d".toList ∧
    DeviceAgent.build_response env s
      = "\x7b\"clientToken\":\"".toList ++ parse_client_token (cstr s.pending_command)
        ++ "\",\"stdout\":\"".toList ++ cstr (DeviceAgent.examples_text env)
        ++ "\",\"stderr\":\"No script provided\",\"exitCode\":1\x7d".toList ∧
    cstr (DeviceAgent.examples_text env)
      = (match env.examples_file with
        | some file => (cstr (fread 4095 file)).map
            (fun c => if c = LF then SPACE else if c = DQUOTE then SQUOTE else c)
        | none => DeviceAgent.EXAMPLES_DEFAULT) ∧
    ((∀ c ∈ parse_client_token (cstr s.pending_command), c ≠ BACKSLASH ∧ 32 ≤ c.toNat) →
      is_response_record (SystemMonitorC.build_response env s) = true ∧
      response_fields (SystemMonitorC.build_response env s)
        = some (parse_client_token (cstr s.pending_command), [],
            "No script provided".toList, "1".toList) ∧
      ((∀ file, env.examples_file = some file →
          ∀ c ∈ cstr (fread 4095 file), c ≠ BACKSLASH ∧ (32 ≤ c.toNat ∨ c = LF)) →
        is_response_record (DeviceAgent.build_response env s) = true ∧
        response_fields (DeviceAgent.build_response env s)
          = some (parse_client_token (cstr s.pending_command),
              cstr (DeviceAgent.examples_text env),
              "No script provided".toList, "1".toList))) := by
  have hempty : parse_script (cstr s.pending_command) = [] := by
    rcases hscript with h | ⟨pre, gap, post, h⟩ | h
    · exact parse_script_of_no_field h
    · exact parse_script_of_empty_field h
    · exact h
  have e1 := smc_format_no_script env hempty
  have e2 := da_format_no_script env hempty
  have r1 : SystemMonitorC.build_response env s
      = "\x7b\"clientToken\":\"".toList ++ (parse_client_token (cstr s.pending_command)
        ++ DQUOTE :: (",\"stdout\":\"".toList ++ ([] ++ DQUOTE ::
          ",\"stderr\":\"No script provided\",\"exitCode\":1\x7d".toList))) := by
    rw [smc_build_response_eq, e1]
    rfl
  have r2 : DeviceAgent.build_response env s
      = "\x7b\"clientToken\":\"".toList ++ (parse_client_token (cstr s.pending_command)
        ++ DQUOTE :: (",\"stdout\":\"".toList ++ (cstr (DeviceAgent.examples_text env)
          ++ DQUOTE :: ",\"stderr\":\"No script provided\",\"exitCode\":1\x7d".toList))) := by
    rw [da_build_response_eq, e2]
    rfl
  refine ⟨hempty, ?_, ?_, ?_, ?_, cstr_examples_text env, fun htok => ⟨?_, ?_, fun hfile => ⟨?_, ?_⟩⟩⟩
  · unfold SystemMonitorC.process_pending_command
    simp only [hocc, Bool.not_true, Bool.false_eq_true, if_false]
    rw [shell_commands_publish_response, e1]
    rfl
  · unfold DeviceAgent.process_pending_command
    simp only [hocc, Bool.not_true, Bool.false_eq_true, if_false]
    rw [shell_commands_publish_response, e2]
    rfl
  · rw [smc_build_response_eq, e1]
    simp only [List.append_assoc]
  · rw [da_build_response_eq, e2]
    simp only [List.append_assoc]
  · rw [r1]
    exact is_response_record_of_parts (json_plain_client_token htok) (by simp) (by decide)
  · rw [r1, response_fields_of_parts (json_plain_client_token htok) (by simp)]
    exact congrArg (Option.map _) (by decide :
      response_tail_fields ",\"stderr\":\"No script provided\",\"exitCode\":1\x7d".toList
        = some ("No script provided".toList, "1".toList))
  · rw [r2]
    exact is_response_record_of_parts (json_plain_client_token htok)
      (json_plain_examples_text env hfile) (by decide)
  · rw [r2, response_fields_of_parts (json_plain_client_token htok)
      (json_plain_examples_text env hfile)]
    exact congrArg (Option.map _) (by decide :
      response_tail_fields ",\"stderr\":\"No script provided\",\"exitCode\":1\x7d".toList
        = some ("No script provided".toList, "1".toList))

/-- C5, amended, at a concrete slot: the message with `"script":""` and the token
`tok-3` starts no shell and gives a well-formed record with `No script provided` and
exit code 1; with the examples file `Try "ls"`, line-feed, `or exit 1` the DeviceAgent
stdout field is `Try 'ls' or exit 1`. -/
theorem no_script_response_witness :
    slot_empty_script.has_pending_command = true ∧
    FieldAt (cstr slot_empty_script.pending_command) SCRIPT_ANCHOR
      "\x7b\"clientToken\":\"tok-3\",".toList [] [] "\x7d".toList ∧
    (∀ c ∈ parse_client_token (cstr slot_empty_script.pending_command),
      c ≠ BACKSLASH ∧ 32 ≤ c.toNat) ∧
    (∀ c ∈ cstr (fread 4095 "Try \"ls\"\nor exit 1".toList),
      c ≠ BACKSLASH ∧ (32 ≤ c.toNat ∨ c = LF)) ∧
    SystemMonitorC.build_response env_examples slot_empty_script
      = "\x7b\"clientToken\":\"tok-3\",\"stdout\":\"\",\"stderr\":\"No script provided\",\"exitCode\":1\x7d".toList ∧
    shell_commands (DeviceAgent.process_pending_command env_examples slot_empty_script).2
      = [] ∧
    is_response_record (SystemMonitorC.build_response env_examples slot_empty_script)
      = true ∧
    DeviceAgent.build_response env_examples slot_empty_script
      = "\x7b\"clientToken\":\"tok-3\",\"stdout\":\"Try 'ls' or exit 1\",\"stderr\":\"No script provided\",\"exitCode\":1\x7d".toList ∧
    is_response_record (DeviceAgent.build_response env_examples slot_empty_script) = true ∧
    response_fields (DeviceAgent.build_response env_examples slot_empty_script)
      = some ("tok-3".toList, "Try 'ls' or exit 1".toList, "No script provided".toList,
          "1".toList) :=
  have hf : FieldAt (cstr slot_empty_script.pending_command) SCRIPT_ANCHOR
      "\x7b\"clientToken\":\"tok-3\",".toList [] [] "\x7d".toList :=
    fieldAt_of_strstr (by decide) (by decide) (by decide) (by decide)
  have h := no_script_response env_examples slot_empty_script (by decide)
    (Or.inr (Or.inl ⟨_, _, _, hf⟩))
  have hw := h.2.2.2.2.2.2 (by decide)
  have hd := hw.2.2 (fun file hfile => by cases hfile; decide)
  ⟨by decide, hf, by decide, by decide, h.2.2.2.1.trans (by decide), h.2.2.1, hw.1,
    h.2.2.2.2.1.trans (by decide), hd.1, hd.2.trans (by decide)⟩

end GreengrassLite
